import Mathlib

/-!
Verification development for the Skyflow/Databricks provisioning and teardown
orchestration core (`skyflow_databricks`).

The development shallowly embeds the Python source:

* `replaceAll`, `apply_substitutions`, `splitStatements`, `runStatements` and
  `execute_sql_file` embed `databricks_ops/sql.py` (`SQLExecutor`).
* `create_catalog`, `drop_catalog`, `put_secret`, ... embed the idempotent
  create/drop primitives of `databricks_ops/unity_catalog.py`,
  `databricks_ops/secrets.py` and `databricks_ops/notebooks.py`, instrumented
  with a flag recording whether the remote mutating call was issued.
* `destroyExecute`, `createExecute` and `runCreate` embed
  `cli/commands.py` (`DestroyCommand.execute`, `CreateCommand.execute`).
  They are parameterised by an `Ops` record giving the semantics of each
  remote operation at the call boundary used by `commands.py`; two
  instantiations are provided, a free outcome oracle (`oracleOps`) and an
  idealised remote-platform state model (`worldOps`).

Remote calls either return a classified result or raise `DatabricksError`,
which every manager method catches and converts to a boolean; the embedding
therefore models each remote operation as total, returning its outcome.
-/

namespace SkyflowDatabricks

/-! ### String layer: Python `str.replace`, `str.split`, `str.strip`

`databricks_ops/sql.py` uses `sql.replace(f"${{{key}}}", str(value))`,
`sql_content.split(';')` and `stmt.strip()`.  Lean core string functions are
not all kernel-reducible, so the embedding works on `List Char` with
structural (fuel-based) recursion. -/

/-- Python whitespace characters recognised by `str.strip()` (ASCII). -/
def pySpace (c : Char) : Bool :=
  c = ' ' || c = '\t' || c = '\n' || c = '\r' || c = '\x0b' || c = '\x0c'

/-- Python `s.strip()`: drop leading and trailing whitespace. -/
def pyStrip (l : List Char) : List Char :=
  ((l.dropWhile pySpace).reverse.dropWhile pySpace).reverse

/-- Python `s.split(sep)` for a one-character separator: splits on every
occurrence, keeping empty fragments (`"".split(';') == [""]`). -/
def splitOnChar (sep : Char) : List Char → List (List Char)
  | [] => [[]]
  | c :: rest =>
    let r := splitOnChar sep rest
    if c = sep then [] :: r
    else
      match r with
      | [] => [[c]]
      | h :: t => (c :: h) :: t

/-- Does `pat` occur as a contiguous sublist of `l`? -/
def containsPat (pat : List Char) : List Char → Bool
  | [] => pat.isEmpty
  | c :: rest => pat.isPrefixOf (c :: rest) || containsPat pat rest

/-- Python `s.replace(pat, rep)`: replace every non-overlapping occurrence of
`pat`, scanning left to right.  Structural recursion on `fuel`; each step
consumes at least one character, so `l.length` fuel suffices. -/
def replaceAllFuel (pat rep : List Char) : Nat → List Char → List Char
  | 0, l => l
  | _, [] => []
  | fuel + 1, c :: rest =>
    if !pat.isEmpty && pat.isPrefixOf (c :: rest) then
      rep ++ replaceAllFuel pat rep fuel ((c :: rest).drop pat.length)
    else
      c :: replaceAllFuel pat rep fuel rest

/-- Python `s.replace(pat, rep)` on character lists. -/
def replaceAll (l pat rep : List Char) : List Char :=
  replaceAllFuel pat rep l.length l

/-- Python `s.replace(pat, rep)` on strings. -/
def pyReplace (s pat rep : String) : String :=
  String.mk (replaceAll s.data pat.data rep.data)

/-! ### `SQLExecutor` (databricks_ops/sql.py) -/

/-- The template placeholder `${KEY}` built by `f"${{{key}}}"` in
`SQLExecutor.apply_substitutions`. -/
def substKey (key : String) : String := "$\x7b" ++ key ++ "\x7d"

/-- `SQLExecutor.apply_substitutions` (sql.py lines 24-32): returns `sql`
unchanged for an empty map, otherwise folds `sql.replace(f"${{{key}}}", value)`
over the substitution map in insertion order. -/
def apply_substitutions (sql : String) (substitutions : List (String × String)) : String :=
  if substitutions.isEmpty then sql
  else substitutions.foldl (fun s kv => pyReplace s (substKey kv.1) kv.2) sql

/-- Statement splitting of `execute_sql_file` (sql.py line 90):
`[stmt.strip() for stmt in sql_content.split(';') if stmt.strip()]`. -/
def splitStatements (content : String) : List String :=
  (((splitOnChar ';' content.data).map pyStrip).filter fun l => !l.isEmpty).map
    fun l => String.mk l

/-- Result of running one SQL file: overall success, the statements that were
attempted (in order), and the 1-based index of the failed statement reported by
`console.print(f"✗ Failed to execute statement {i+1}")`. -/
structure SqlFileRun where
  ok : Bool
  executed : List String
  failedIndex : Option Nat
  deriving Repr, DecidableEq

/-- The statement loop of `execute_sql_file` (sql.py lines 92-102): execute
each statement in order; on the first failure record the 1-based index and
break.  `os` lists the outcome of each remote statement execution in order
(`execute_statement` returns a response on success and `None` on failure). -/
def runStatements (os : List Bool) (i : Nat) : List String → Bool × List String × Option Nat
  | [] => (true, [], none)
  | s :: rest =>
    if os.headD false then
      let (ok, ex, fi) := runStatements os.tail (i + 1) rest
      (ok, s :: ex, fi)
    else
      (false, [s], some (i + 1))

/-- `SQLExecutor.execute_sql_file` (sql.py lines 66-111).  File resolution and
reading are I/O: the embedding takes the file's existence and contents as
inputs.  The remote outcome of each executed statement is drawn from `os`. -/
def execute_sql_file (fileExists : Bool) (content : String)
    (substitutions : List (String × String)) (os : List Bool) : SqlFileRun :=
  if !fileExists then ⟨false, [], none⟩
  else
    let sql := if !substitutions.isEmpty then apply_substitutions content substitutions
               else content
    let stmts := splitStatements sql
    let (ok, ex, fi) := runStatements os 0 stmts
    ⟨ok, ex, fi⟩

/-! ### Idempotent create/drop primitives

`DatabricksClientWrapper` (`databricks_ops/client.py`, the RetryExecutor /
ExistenceGuard of the spec) is not part of the sources under verification;
its `check_resource_exists` probe result and the eventual outcome of the
retried remote call are inputs.  Each primitive records whether the remote
mutating call was issued (`issuedCall`), mirroring whether control reached
the `execute_with_retry` call in the source. -/

/-- Outcome of one manager primitive: reported success and whether the remote
create/delete call was issued. -/
structure OpOutcome where
  ok : Bool
  issuedCall : Bool
  deriving Repr, DecidableEq

/-- `UnityCatalogManager.create_catalog` (unity_catalog.py lines 55-77):
no-op success if the catalog exists, otherwise create through retry;
`DatabricksError` reports failure. -/
def create_catalog (catalogFound createOk : Bool) : OpOutcome :=
  if catalogFound then ⟨true, false⟩ else ⟨createOk, true⟩

/-- `UnityCatalogManager.create_schema` (unity_catalog.py lines 79-103). -/
def create_schema (schemaFound createOk : Bool) : OpOutcome :=
  if schemaFound then ⟨true, false⟩ else ⟨createOk, true⟩

/-- `UnityCatalogManager.create_http_connection` (unity_catalog.py lines 20-53). -/
def create_http_connection (connectionFound createOk : Bool) : OpOutcome :=
  if connectionFound then ⟨true, false⟩ else ⟨createOk, true⟩

/-- `SecretsManager.create_secret_scope` (secrets.py lines 20-46): no-op
success if the scope is already listed. -/
def create_secret_scope (scopeListed createOk : Bool) : OpOutcome :=
  if scopeListed then ⟨true, false⟩ else ⟨createOk, true⟩

/-- `SecretsManager.put_secret` (secrets.py lines 48-64): always issues the
write (`put_secret` is an upsert; the source consults no existence probe). -/
def put_secret (putOk : Bool) : OpOutcome :=
  ⟨putOk, true⟩

/-- `NotebookManager.create_notebook_from_file` (notebooks.py lines 24-60):
fails without any remote call when the local file is missing, otherwise
always issues the upload (`overwrite=True`; no workspace existence probe). -/
def create_notebook_from_file (localFileFound uploadOk : Bool) : OpOutcome :=
  if !localFileFound then ⟨false, false⟩ else ⟨uploadOk, true⟩

/-- `UnityCatalogManager.drop_catalog` (unity_catalog.py lines 105-124):
no-op success if the catalog does not exist. -/
def drop_catalog (catalogFound deleteOk : Bool) : OpOutcome :=
  if !catalogFound then ⟨true, false⟩ else ⟨deleteOk, true⟩

/-- `UnityCatalogManager.drop_connection` (unity_catalog.py lines 126-145). -/
def drop_connection (connectionFound deleteOk : Bool) : OpOutcome :=
  if !connectionFound then ⟨true, false⟩ else ⟨deleteOk, true⟩

/-- `SecretsManager.delete_secret_scope` (secrets.py lines 66-84). -/
def delete_secret_scope (scopeListed deleteOk : Bool) : OpOutcome :=
  if !scopeListed then ⟨true, false⟩ else ⟨deleteOk, true⟩

/-- `NotebookManager.delete_notebook` (notebooks.py lines 178-195): no-op
success if the notebook does not exist. -/
def delete_notebook (notebookFound deleteOk : Bool) : OpOutcome :=
  if !notebookFound then ⟨true, false⟩ else ⟨deleteOk, true⟩

/-! ### The command pipelines (cli/commands.py)

`CreateCommand.execute` and `DestroyCommand.execute` interact with the
platform through the manager methods above.  The pipelines are embedded once,
parameterised by an `Ops` record giving the semantics of each manager-level
operation they invoke, threading an abstract machine state `σ` by hand.
Each field corresponds to one method called by `commands.py`; the method's
internals live in the standalone primitives above and in the machine
instantiations below. -/

/-- Semantics of the remote operations invoked by `commands.py`, as state
transformers over a machine state `σ`.  `validateEnv` is
`BaseCommand.validate_environment` (false models the raised `ValueError`,
caught by the command's `except` clause); `requiredFilesExist` is
`validate_required_files`. -/
structure Ops (σ : Type) where
  validateEnv : σ → Bool × σ
  requiredFilesExist : σ → Bool × σ
  findDashboardByName : String → σ → Option String × σ
  deleteDashboard : String → σ → Bool × σ
  deleteNotebook : String → σ → Bool × σ
  catalogExists : String → σ → Bool × σ
  connectionExists : String → σ → Bool × σ
  secretScopeExists : String → σ → Bool × σ
  executeSqlFile : String → List (String × String) → σ → Bool × σ
  dropCatalog : String → σ → Bool × σ
  dropConnection : String → σ → Bool × σ
  deleteSecretScope : String → σ → Bool × σ
  createCatalog : String → σ → Bool × σ
  createSchema : String → String → σ → Bool × σ
  createSecretScope : String → σ → Bool × σ
  putSecret : String → String → σ → Bool × σ
  setupTokenizationNotebook : String → σ → Bool × σ
  executeTokenizationNotebook : String → σ → Bool × σ
  setupCustomerInsightsDashboard : String → σ → Option String × σ
  verifyTableExists : String → σ → Bool × σ
  getTableRowCount : String → σ → Option Int × σ

/-- The two deletion-tracking lists of `DestroyCommand.execute`
(`successful_deletions`, `failed_deletions`) together with the trace of step
banners printed by the command. -/
structure DRecord where
  successful : List String
  failed : List String
  steps : List String
  deriving Repr, DecidableEq

/-- Result of `DestroyCommand.execute`: the returned boolean
(`len(failed_deletions) == 0`, or `False` on a validation exception) plus the
deletion record. -/
structure DestroyResult where
  ok : Bool
  successful : List String
  failed : List String
  steps : List String
  deriving Repr, DecidableEq

/-- Result of `CreateCommand.execute`: the returned boolean, the result of
the unconditional pre-create destroy, the trace of step banners, and the
dashboard URL from step 9. -/
structure CreateResult where
  ok : Bool
  preDestroy : DestroyResult
  steps : List String
  dashboardUrl : Option String
  deriving Repr, DecidableEq

/-- Run one destroy step: the source prints the step banner, then appends the
step's contributions to the two deletion lists. -/
def runStep {σ : Type} (banner : String)
    (core : σ → (List String × List String) × σ) (acc : DRecord) (s : σ) :
    DRecord × σ :=
  (⟨acc.successful ++ (core s).1.1, acc.failed ++ (core s).1.2, acc.steps ++ [banner]⟩,
   (core s).2)

/-- Destroy step 1 (commands.py lines 303-317): find the dashboard by name;
if found, delete it and re-probe (a surviving dashboard is recorded as failed
in addition to the successful delete); a failed delete is recorded as failed;
an absent dashboard is recorded as successful. -/
def destroyStep1 {σ : Type} (ops : Ops σ) (pfx : String) (s : σ) :
    (List String × List String) × σ :=
  let dname := pfx ++ "_customer_insights_dashboard"
  let fr := ops.findDashboardByName dname s
  match fr.1 with
  | some did =>
    let dr := ops.deleteDashboard did fr.2
    if dr.1 then
      let ar := ops.findDashboardByName dname dr.2
      match ar.1 with
      | some _ => ((["Dashboard: " ++ dname], ["Dashboard: " ++ dname ++ " (still exists)"]), ar.2)
      | none => ((["Dashboard: " ++ dname], []), ar.2)
    else (([], ["Dashboard: " ++ dname]), dr.2)
  | none => (((["Dashboard: " ++ dname ++ " (didn't exist)"]), []), fr.2)

/-- Destroy step 2 (commands.py lines 319-326): delete the notebook; a
successful delete (which includes the "doesn't exist" case) is recorded as
successful; a failed delete is recorded nowhere (the source has no `else`). -/
def destroyStep2 {σ : Type} (ops : Ops σ) (pfx : String) (s : σ) :
    (List String × List String) × σ :=
  let nbPath := "/Shared/" ++ pfx ++ "_tokenize_table"
  let dr := ops.deleteNotebook nbPath s
  if dr.1 then (((["Notebook: " ++ nbPath]), []), dr.2)
  else (([], []), dr.2)

/-- Destroy step 3 (commands.py lines 328-340): if the catalog exists, run the
column-mask removal SQL; a SQL failure is recorded as skipped in the
successful list; an absent catalog is recorded as successful. -/
def destroyStep3 {σ : Type} (ops : Ops σ) (pfx : String) (s : σ) :
    (List String × List String) × σ :=
  let cname := pfx ++ "_catalog"
  let ce := ops.catalogExists cname s
  if ce.1 then
    let qr := ops.executeSqlFile "sql/destroy/remove_column_masks.sql" [("PREFIX", pfx)] ce.2
    if qr.1 then (((["Column masks removed"]), []), qr.2)
    else (((["Column masks (skipped)"]), []), qr.2)
  else (((["Column masks (catalog didn't exist)"]), []), ce.2)

/-- Destroy step 4 (commands.py lines 342-353): if the catalog exists, run the
function-drop SQL; a SQL failure is recorded as failed. -/
def destroyStep4 {σ : Type} (ops : Ops σ) (pfx : String) (s : σ) :
    (List String × List String) × σ :=
  let cname := pfx ++ "_catalog"
  let ce := ops.catalogExists cname s
  if ce.1 then
    let qr := ops.executeSqlFile "sql/destroy/drop_functions.sql" [("PREFIX", pfx)] ce.2
    if qr.1 then (((["Unity Catalog functions"]), []), qr.2)
    else (([], ["Unity Catalog functions"]), qr.2)
  else (((["Functions (catalog didn't exist)"]), []), ce.2)

/-- Destroy step 5 (commands.py lines 355-364): if the catalog exists, run the
table-drop SQL; a SQL failure is recorded as failed. -/
def destroyStep5 {σ : Type} (ops : Ops σ) (pfx : String) (s : σ) :
    (List String × List String) × σ :=
  let cname := pfx ++ "_catalog"
  let ce := ops.catalogExists cname s
  if ce.1 then
    let qr := ops.executeSqlFile "sql/destroy/drop_table.sql" [("PREFIX", pfx)] ce.2
    if qr.1 then (((["Sample table"]), []), qr.2)
    else (([], ["Sample table"]), qr.2)
  else (((["Sample table (catalog didn't exist)"]), []), ce.2)

/-- Destroy step 6 (commands.py lines 366-374): drop the catalog; on success
re-probe and record a surviving catalog as failed in addition; a failed drop
is recorded as failed. -/
def destroyStep6 {σ : Type} (ops : Ops σ) (pfx : String) (s : σ) :
    (List String × List String) × σ :=
  let cname := pfx ++ "_catalog"
  let dr := ops.dropCatalog cname s
  if dr.1 then
    let er := ops.catalogExists cname dr.2
    if er.1 then ((["Catalog: " ++ cname], ["Catalog: " ++ cname ++ " (still exists)"]), er.2)
    else ((["Catalog: " ++ cname], []), er.2)
  else (([], ["Catalog: " ++ cname]), dr.2)

/-- Destroy step 7 (commands.py lines 376-384): drop the shared connection;
on success re-probe and record a surviving connection as failed in addition;
a failed drop is recorded nowhere (the source has no `else`). -/
def destroyStep7 {σ : Type} (ops : Ops σ) (s : σ) :
    (List String × List String) × σ :=
  let dr := ops.dropConnection "skyflow_conn" s
  if dr.1 then
    let er := ops.connectionExists "skyflow_conn" dr.2
    if er.1 then ((["Connection: skyflow_conn"], ["Connection: skyflow_conn (still exists)"]), er.2)
    else ((["Connection: skyflow_conn"], []), er.2)
  else (([], []), dr.2)

/-- Destroy step 8 (commands.py lines 386-394): delete the shared secret
scope; on success re-probe and record a surviving scope as failed in
addition; a failed delete is recorded as failed. -/
def destroyStep8 {σ : Type} (ops : Ops σ) (s : σ) :
    (List String × List String) × σ :=
  let dr := ops.deleteSecretScope "skyflow-secrets" s
  if dr.1 then
    let er := ops.secretScopeExists "skyflow-secrets" dr.2
    if er.1 then
      ((["Secret scope: skyflow-secrets"], ["Secret scope: skyflow-secrets (still exists)"]), er.2)
    else ((["Secret scope: skyflow-secrets"], []), er.2)
  else (([], ["Secret scope: skyflow-secrets"]), dr.2)

/-- Step banners printed by `DestroyCommand.execute`. -/
def destroyBanners : List String :=
  ["Step 1: Removing dashboard", "Step 2: Removing notebook",
   "Step 3: Removing column masks", "Step 4: Dropping Unity Catalog functions",
   "Step 5: Dropping sample table", "Step 6: Removing Unity Catalog",
   "Step 7: Cleaning up connections", "Step 8: Cleaning up secrets"]

/-- `DestroyCommand.execute` (commands.py lines 282-404): validate the
environment (an exception returns `False` before any step), then run the
eight teardown steps unconditionally in order, and return
`len(failed_deletions) == 0`. -/
def destroyExecute {σ : Type} (ops : Ops σ) (pfx : String) (s : σ) :
    DestroyResult × σ :=
  let v := ops.validateEnv s
  if !v.1 then (⟨false, [], [], []⟩, v.2)
  else
    let a1 := runStep "Step 1: Removing dashboard" (destroyStep1 ops pfx) ⟨[], [], []⟩ v.2
    let a2 := runStep "Step 2: Removing notebook" (destroyStep2 ops pfx) a1.1 a1.2
    let a3 := runStep "Step 3: Removing column masks" (destroyStep3 ops pfx) a2.1 a2.2
    let a4 := runStep "Step 4: Dropping Unity Catalog functions" (destroyStep4 ops pfx) a3.1 a3.2
    let a5 := runStep "Step 5: Dropping sample table" (destroyStep5 ops pfx) a4.1 a4.2
    let a6 := runStep "Step 6: Removing Unity Catalog" (destroyStep6 ops pfx) a5.1 a5.2
    let a7 := runStep "Step 7: Cleaning up connections" (destroyStep7 ops) a6.1 a6.2
    let a8 := runStep "Step 8: Cleaning up secrets" (destroyStep8 ops) a7.1 a7.2
    (⟨a8.1.failed.isEmpty, a8.1.successful, a8.1.failed, a8.1.steps⟩, a8.2)

/-- `CreateCommand._setup_unity_catalog` (commands.py lines 142-149):
`success = create_catalog(...); success &= create_schema(...)` — both calls
are always issued, the results are conjoined. -/
def setupUnityCatalog {σ : Type} (ops : Ops σ) (pfx : String) (s : σ) : Bool × σ :=
  let cname := pfx ++ "_catalog"
  let cr := ops.createCatalog cname s
  let sr := ops.createSchema cname "default" cr.2
  (cr.1 && sr.1, sr.2)

/-- `SecretsManager.setup_skyflow_secrets` (secrets.py lines 86-107), called
by `CreateCommand._setup_secrets`: create the scope (abort on failure), then
put all four secrets, conjoining their results without aborting. -/
def setupSkyflowSecrets {σ : Type} (ops : Ops σ) (s : σ) : Bool × σ :=
  let sc := ops.createSecretScope "skyflow-secrets" s
  if !sc.1 then (false, sc.2)
  else
    let p1 := ops.putSecret "skyflow-secrets" "skyflow_pat_token" sc.2
    let p2 := ops.putSecret "skyflow-secrets" "skyflow_vault_id" p1.2
    let p3 := ops.putSecret "skyflow-secrets" "skyflow_table" p2.2
    let p4 := ops.putSecret "skyflow-secrets" "skyflow_table_column" p3.2
    (p1.1 && p2.1 && p3.1 && p4.1, p4.2)

/-- `CreateCommand._setup_connections` (commands.py lines 161-176): run the
connection SQL; only if it succeeded, run the API-setup SQL and conjoin. -/
def setupConnections {σ : Type} (ops : Ops σ) (subs : List (String × String)) (s : σ) :
    Bool × σ :=
  let q1 := ops.executeSqlFile "sql/setup/create_uc_connections.sql" subs s
  if q1.1 then
    let q2 := ops.executeSqlFile "sql/setup/setup_uc_connections_api.sql" subs q1.2
    (q1.1 && q2.1, q2.2)
  else (false, q1.2)

/-- `CreateCommand._create_sample_data` (commands.py lines 178-196): run the
table SQL; on success probe the table and (if present) read its row count for
reporting; the returned boolean is the SQL result alone. -/
def createSampleData {σ : Type} (ops : Ops σ) (pfx : String)
    (subs : List (String × String)) (s : σ) : Bool × σ :=
  let tr := ops.executeSqlFile "sql/setup/create_sample_table.sql" subs s
  if tr.1 then
    let tname := pfx ++ "_catalog.default." ++ pfx ++ "_customer_data"
    let vr := ops.verifyTableExists tname tr.2
    if vr.1 then
      (tr.1, (ops.getTableRowCount tname vr.2).2)
    else (tr.1, vr.2)
  else (tr.1, tr.2)

/-- Step banners printed by `CreateCommand.execute`. -/
def createBanners : List String :=
  ["Step 1: Setting up Unity Catalog", "Step 2: Setting up secrets",
   "Step 3: Creating HTTP connections", "Step 4: Creating sample table",
   "Step 5: Creating tokenization notebook", "Step 6: Verifying functions",
   "Step 7: Running tokenization", "Step 8: Applying column masks to tokenized data",
   "Step 9: Creating dashboard"]

/-- `CreateCommand.execute` (commands.py lines 44-140).  The command first
runs `destroy_command.execute()` discarding its result (`destroyRun` is that
computation), then validates the environment and the required files (each
failure returns `False`), then runs steps 1-9: steps 1-5 return `False`
immediately on failure; step 6's result only prints a warning; step 8
executes only if step 7 succeeded and its failure only prints a warning;
step 9 is always attempted and the command returns `True`. -/
def createExecute {σ : Type} (ops : Ops σ) (destroyRun : σ → DestroyResult × σ)
    (pfx : String) (subs : List (String × String)) (s : σ) : CreateResult × σ :=
  let pre := destroyRun s
  let v := ops.validateEnv pre.2
  if !v.1 then (⟨false, pre.1, [], none⟩, v.2)
  else
    let files := ops.requiredFilesExist v.2
    if !files.1 then (⟨false, pre.1, [], none⟩, files.2)
    else
      let st1 := setupUnityCatalog ops pfx files.2
      if !st1.1 then (⟨false, pre.1, ["Step 1: Setting up Unity Catalog"], none⟩, st1.2)
      else
        let st2 := setupSkyflowSecrets ops st1.2
        if !st2.1 then
          (⟨false, pre.1, createBanners.take 2, none⟩, st2.2)
        else
          let st3 := setupConnections ops subs st2.2
          if !st3.1 then (⟨false, pre.1, createBanners.take 3, none⟩, st3.2)
          else
            let st4 := createSampleData ops pfx subs st3.2
            if !st4.1 then (⟨false, pre.1, createBanners.take 4, none⟩, st4.2)
            else
              let st5 := ops.setupTokenizationNotebook pfx st4.2
              if !st5.1 then (⟨false, pre.1, createBanners.take 5, none⟩, st5.2)
              else
                let v6 := ops.executeSqlFile "sql/verify/verify_functions.sql" subs st5.2
                let tok := ops.executeTokenizationNotebook pfx v6.2
                let s10 :=
                  if tok.1 then (ops.executeSqlFile "sql/setup/apply_column_masks.sql" subs tok.2).2
                  else tok.2
                let ur := ops.setupCustomerInsightsDashboard pfx s10
                (⟨true, pre.1, createBanners, ur.1⟩, ur.2)

/-- The create entry point: `CreateCommand.execute` wired with its
unconditional pre-create `DestroyCommand.execute` on the same identifier
(commands.py lines 51-55). -/
def runCreate {σ : Type} (ops : Ops σ) (pfx : String)
    (subs : List (String × String)) (s : σ) : CreateResult × σ :=
  createExecute ops (destroyExecute ops pfx) pfx subs s

/-! ### Free outcome oracle

One run of a command is determined by the outcome of each remote operation.
`OEnv` assigns every operation an outcome, keyed by the operation's argument;
the machine state is the log of operations invoked so far, so that theorems
can speak about which operations a run did or did not attempt. -/

/-- Remote-call outcomes for one run: each field gives the result of the
corresponding manager method, keyed by its argument (for `sqlFile`, the
template path; for `putSecretOk`, the secret key). -/
structure OEnv where
  validateOk : Bool
  filesOk : Bool
  findDash : String → Option String
  deleteDashOk : String → Bool
  deleteNbOk : String → Bool
  catExists : String → Bool
  connExists : String → Bool
  scopeExists : String → Bool
  sqlFile : String → Bool
  dropCatOk : String → Bool
  dropConnOk : String → Bool
  deleteScopeOk : String → Bool
  createCatOk : String → Bool
  createSchOk : String → Bool
  createScopeOk : String → Bool
  putSecretOk : String → Bool
  setupNbOk : String → Bool
  execTokOk : String → Bool
  setupDash : String → Option String
  verifyTable : String → Bool
  rowCount : String → Option Int

/-- The oracle machine: operations draw their result from `e` and append
their name (and, for SQL, the template path) to the call log. -/
def oracleOps (e : OEnv) : Ops (List String) where
  validateEnv := fun s => (e.validateOk, s ++ ["validate_environment"])
  requiredFilesExist := fun s => (e.filesOk, s ++ ["validate_required_files"])
  findDashboardByName := fun n s => (e.findDash n, s ++ ["find_dashboard_by_name"])
  deleteDashboard := fun d s => (e.deleteDashOk d, s ++ ["delete_dashboard"])
  deleteNotebook := fun p s => (e.deleteNbOk p, s ++ ["delete_notebook"])
  catalogExists := fun n s => (e.catExists n, s ++ ["catalog_exists"])
  connectionExists := fun n s => (e.connExists n, s ++ ["connection_exists"])
  secretScopeExists := fun n s => (e.scopeExists n, s ++ ["secret_scope_exists"])
  executeSqlFile := fun path _ s => (e.sqlFile path, s ++ ["execute_sql_file " ++ path])
  dropCatalog := fun n s => (e.dropCatOk n, s ++ ["drop_catalog"])
  dropConnection := fun n s => (e.dropConnOk n, s ++ ["drop_connection"])
  deleteSecretScope := fun n s => (e.deleteScopeOk n, s ++ ["delete_secret_scope"])
  createCatalog := fun n s => (e.createCatOk n, s ++ ["create_catalog"])
  createSchema := fun c n s => (e.createSchOk (c ++ "." ++ n), s ++ ["create_schema"])
  createSecretScope := fun n s => (e.createScopeOk n, s ++ ["create_secret_scope"])
  putSecret := fun _ k s => (e.putSecretOk k, s ++ ["put_secret"])
  setupTokenizationNotebook := fun p s => (e.setupNbOk p, s ++ ["setup_tokenization_notebook"])
  executeTokenizationNotebook := fun p s => (e.execTokOk p, s ++ ["execute_tokenization_notebook"])
  setupCustomerInsightsDashboard := fun p s =>
    (e.setupDash p, s ++ ["setup_customer_insights_dashboard"])
  verifyTableExists := fun n s => (e.verifyTable n, s ++ ["verify_table_exists"])
  getTableRowCount := fun n s => (e.rowCount n, s ++ ["get_table_row_count"])

/-! ### Idealised remote platform

Modelled from the spec: the remote platform (`RemoteClient`, §6 of the spec)
is an external collaborator whose actual implementation is out of scope; the
world model gives it the natural state semantics — probes read the state
truthfully, a successful create adds the resource, a successful delete
removes it, and a delete on which a permanent failure is injected leaves the
state unchanged.

Modelled from the spec: the SQL template bodies (`sql/setup/*.sql`,
`sql/destroy/*.sql`, part of the repository but not among the sources) are
given their documented effects — the connection-setup file creates the shared
`skyflow_conn` connection, the sample-table file creates
`{prefix}_customer_data`, the table-drop file drops it, and the mask /
function / verification files do not change the resource state. -/

/-- Resource state of the remote platform. -/
structure World where
  catalogs : List String
  schemas : List String
  tables : List (String × String)
  connections : List String
  scopes : List String
  notebooks : List String
  dashboards : List String
  deriving Repr, DecidableEq

/-- Machine state of the world model: the resource state plus injected
permanent failures for each kind of mutating call, consumed in order (an
empty list injects no failure). -/
structure WState where
  world : World
  failDeleteDashboard : List Bool
  failDeleteNotebook : List Bool
  failDropCatalog : List Bool
  failDropConnection : List Bool
  failDeleteScope : List Bool
  failSql : List Bool
  deriving Repr, DecidableEq

/-- Look up a substitution value (used to derive the table name the SQL
templates act on). -/
def lookupSub (subs : List (String × String)) (key : String) : String :=
  ((subs.find? fun kv => kv.1 = key).map fun kv => kv.2).getD ""

/-- Effect of one SQL template on the resource state (see the module note:
modelled from the spec, since template bodies are outside the sources). -/
def sqlEffect (path : String) (subs : List (String × String)) (w : World) : World :=
  if path = "sql/setup/create_uc_connections.sql" then
    if w.connections.contains "skyflow_conn" then w
    else { w with connections := "skyflow_conn" :: w.connections }
  else if path = "sql/setup/create_sample_table.sql" then
    let p := lookupSub subs "PREFIX"
    let entry := (p ++ "_catalog", p ++ "_customer_data")
    if w.tables.contains entry then w else { w with tables := entry :: w.tables }
  else if path = "sql/destroy/drop_table.sql" then
    let p := lookupSub subs "PREFIX"
    let entry := (p ++ "_catalog", p ++ "_customer_data")
    { w with tables := w.tables.filter fun t => !(t = entry) }
  else w

/-- The world machine.  Probes read the state truthfully; the manager-level
no-op guards (create on an existing resource, drop on an absent one) follow
the primitives above, so an injected failure is consumed only when the
remote mutating call is actually issued. -/
def worldOps : Ops WState where
  validateEnv := fun s => (true, s)
  requiredFilesExist := fun s => (true, s)
  findDashboardByName := fun n s =>
    (if s.world.dashboards.contains n then some n else none, s)
  deleteDashboard := fun d s =>
    if s.failDeleteDashboard.headD false then
      (false, { s with failDeleteDashboard := s.failDeleteDashboard.tail })
    else
      (true, { s with
        failDeleteDashboard := s.failDeleteDashboard.tail,
        world := { s.world with dashboards := s.world.dashboards.filter fun x => !(x = d) } })
  deleteNotebook := fun p s =>
    if !s.world.notebooks.contains p then (true, s)
    else if s.failDeleteNotebook.headD false then
      (false, { s with failDeleteNotebook := s.failDeleteNotebook.tail })
    else
      (true, { s with
        failDeleteNotebook := s.failDeleteNotebook.tail,
        world := { s.world with notebooks := s.world.notebooks.filter fun x => !(x = p) } })
  catalogExists := fun n s => (s.world.catalogs.contains n, s)
  connectionExists := fun n s => (s.world.connections.contains n, s)
  secretScopeExists := fun n s => (s.world.scopes.contains n, s)
  executeSqlFile := fun path subs s =>
    if s.failSql.headD false then (false, { s with failSql := s.failSql.tail })
    else (true, { s with failSql := s.failSql.tail, world := sqlEffect path subs s.world })
  dropCatalog := fun n s =>
    if !s.world.catalogs.contains n then (true, s)
    else if s.failDropCatalog.headD false then
      (false, { s with failDropCatalog := s.failDropCatalog.tail })
    else
      (true, { s with
        failDropCatalog := s.failDropCatalog.tail,
        world := { s.world with
          catalogs := s.world.catalogs.filter fun x => !(x = n),
          schemas := s.world.schemas.filter fun x => !((n ++ ".").data.isPrefixOf x.data),
          tables := s.world.tables.filter fun t => !(t.1 = n) } })
  dropConnection := fun n s =>
    if !s.world.connections.contains n then (true, s)
    else if s.failDropConnection.headD false then
      (false, { s with failDropConnection := s.failDropConnection.tail })
    else
      (true, { s with
        failDropConnection := s.failDropConnection.tail,
        world := { s.world with connections := s.world.connections.filter fun x => !(x = n) } })
  deleteSecretScope := fun n s =>
    if !s.world.scopes.contains n then (true, s)
    else if s.failDeleteScope.headD false then
      (false, { s with failDeleteScope := s.failDeleteScope.tail })
    else
      (true, { s with
        failDeleteScope := s.failDeleteScope.tail,
        world := { s.world with scopes := s.world.scopes.filter fun x => !(x = n) } })
  createCatalog := fun n s =>
    if s.world.catalogs.contains n then (true, s)
    else (true, { s with world := { s.world with catalogs := n :: s.world.catalogs } })
  createSchema := fun c n s =>
    let full := c ++ "." ++ n
    if s.world.schemas.contains full then (true, s)
    else (true, { s with world := { s.world with schemas := full :: s.world.schemas } })
  createSecretScope := fun n s =>
    if s.world.scopes.contains n then (true, s)
    else (true, { s with world := { s.world with scopes := n :: s.world.scopes } })
  putSecret := fun _ _ s => (true, s)
  setupTokenizationNotebook := fun p s =>
    let path := "/Shared/" ++ p ++ "_tokenize_table"
    if s.world.notebooks.contains path then (true, s)
    else (true, { s with world := { s.world with notebooks := path :: s.world.notebooks } })
  executeTokenizationNotebook := fun _ s => (true, s)
  setupCustomerInsightsDashboard := fun p s =>
    let dname := p ++ "_customer_insights_dashboard"
    if s.world.dashboards.contains dname then (some ("https://host/sql/dashboardsv3/" ++ dname), s)
    else
      (some ("https://host/sql/dashboardsv3/" ++ dname),
       { s with world := { s.world with dashboards := dname :: s.world.dashboards } })
  verifyTableExists := fun _ s => (true, s)
  getTableRowCount := fun _ s => (some 5, s)

/-- Modelled from the spec: the existence probe for the sample table
(`verify_table_exists` runs `DESCRIBE TABLE {catalog}.default.{table}`, which
fails when either the catalog or the table is absent). -/
def tableReachable (w : World) (c t : String) : Bool :=
  w.tables.contains (c, t) && w.catalogs.contains c

/-! ### Concrete run environments used in witnesses and counterexamples -/

/-- The outcome of the `j`-th remote statement execution inside one SQL file
run (the statements are executed in order, one remote call each). -/
def osAt (os : List Bool) (j : Nat) : Bool := os.getD j false

/-- A run in which every remote operation succeeds and no resource survives
its deletion. -/
def allOkEnv : OEnv where
  validateOk := true
  filesOk := true
  findDash := fun _ => none
  deleteDashOk := fun _ => true
  deleteNbOk := fun _ => true
  catExists := fun _ => false
  connExists := fun _ => false
  scopeExists := fun _ => false
  sqlFile := fun _ => true
  dropCatOk := fun _ => true
  dropConnOk := fun _ => true
  deleteScopeOk := fun _ => true
  createCatOk := fun _ => true
  createSchOk := fun _ => true
  createScopeOk := fun _ => true
  putSecretOk := fun _ => true
  setupNbOk := fun _ => true
  execTokOk := fun _ => true
  setupDash := fun _ => some "url"
  verifyTable := fun _ => true
  rowCount := fun _ => some 5

/-- A destroy run in which every delete call reports success but every
post-delete existence probe still finds the resource. -/
def stillExistsEnv : OEnv :=
  { allOkEnv with
      findDash := fun n => some n,
      catExists := fun _ => true,
      connExists := fun _ => true,
      scopeExists := fun _ => true }

/-- A destroy run in which the notebook delete and the connection drop report
permanent failure while every other operation succeeds (the dashboard and the
catalog-gated SQL steps find nothing to delete). -/
def c4Env : OEnv :=
  { allOkEnv with
      deleteNbOk := fun _ => false,
      dropConnOk := fun _ => false,
      sqlFile := fun _ => false }

/-- A create run in which the secret-scope creation (step 2) fails
permanently and everything else would succeed. -/
def failSecretsEnv : OEnv :=
  { allOkEnv with createScopeOk := fun _ => false }

/-- The empty remote platform. -/
def emptyWorld : World where
  catalogs := []
  schemas := []
  tables := []
  connections := []
  scopes := []
  notebooks := []
  dashboards := []

/-- World-machine state with no resources and no injected failures. -/
def cleanWState : WState where
  world := emptyWorld
  failDeleteDashboard := []
  failDeleteNotebook := []
  failDropCatalog := []
  failDropConnection := []
  failDeleteScope := []
  failSql := []

/-- The substitution map for the identifier `demo` (the only key the world
model consumes is `PREFIX`). -/
def subsDemo : List (String × String) := [("PREFIX", "demo")]

/-! ### Per-step deletion-list contributions under the oracle

Under `oracleOps` each step's contribution to the two deletion lists is a
function of the outcomes alone; these functions restate each
`destroyStepK` at the outcome level and are proved equal to them below. -/

/-- Step 1 contribution (dashboard). -/
def step1Contrib (e : OEnv) (pfx : String) : List String × List String :=
  let dname := pfx ++ "_customer_insights_dashboard"
  match e.findDash dname with
  | some did =>
    if e.deleteDashOk did then
      match e.findDash dname with
      | some _ => (["Dashboard: " ++ dname], ["Dashboard: " ++ dname ++ " (still exists)"])
      | none => (["Dashboard: " ++ dname], [])
    else ([], ["Dashboard: " ++ dname])
  | none => (["Dashboard: " ++ dname ++ " (didn't exist)"], [])

/-- Step 2 contribution (notebook). -/
def step2Contrib (e : OEnv) (pfx : String) : List String × List String :=
  let nbPath := "/Shared/" ++ pfx ++ "_tokenize_table"
  if e.deleteNbOk nbPath then (["Notebook: " ++ nbPath], []) else ([], [])

/-- Step 3 contribution (column masks). -/
def step3Contrib (e : OEnv) (pfx : String) : List String × List String :=
  if e.catExists (pfx ++ "_catalog") then
    if e.sqlFile "sql/destroy/remove_column_masks.sql" then (["Column masks removed"], [])
    else (["Column masks (skipped)"], [])
  else (["Column masks (catalog didn't exist)"], [])

/-- Step 4 contribution (functions). -/
def step4Contrib (e : OEnv) (pfx : String) : List String × List String :=
  if e.catExists (pfx ++ "_catalog") then
    if e.sqlFile "sql/destroy/drop_functions.sql" then (["Unity Catalog functions"], [])
    else ([], ["Unity Catalog functions"])
  else (["Functions (catalog didn't exist)"], [])

/-- Step 5 contribution (sample table). -/
def step5Contrib (e : OEnv) (pfx : String) : List String × List String :=
  if e.catExists (pfx ++ "_catalog") then
    if e.sqlFile "sql/destroy/drop_table.sql" then (["Sample table"], [])
    else ([], ["Sample table"])
  else (["Sample table (catalog didn't exist)"], [])

/-- Step 6 contribution (catalog). -/
def step6Contrib (e : OEnv) (pfx : String) : List String × List String :=
  let cname := pfx ++ "_catalog"
  if e.dropCatOk cname then
    if e.catExists cname then
      (["Catalog: " ++ cname], ["Catalog: " ++ cname ++ " (still exists)"])
    else (["Catalog: " ++ cname], [])
  else ([], ["Catalog: " ++ cname])

/-- Step 7 contribution (connection). -/
def step7Contrib (e : OEnv) : List String × List String :=
  if e.dropConnOk "skyflow_conn" then
    if e.connExists "skyflow_conn" then
      (["Connection: skyflow_conn"], ["Connection: skyflow_conn (still exists)"])
    else (["Connection: skyflow_conn"], [])
  else ([], [])

/-- Step 8 contribution (secret scope). -/
def step8Contrib (e : OEnv) : List String × List String :=
  if e.deleteScopeOk "skyflow-secrets" then
    if e.scopeExists "skyflow-secrets" then
      (["Secret scope: skyflow-secrets"], ["Secret scope: skyflow-secrets (still exists)"])
    else (["Secret scope: skyflow-secrets"], [])
  else ([], ["Secret scope: skyflow-secrets"])

/-! ### Per-step results of the create pipeline under the oracle -/

/-- A pre-destroy computation with a fixed result and no effect: stands for
an arbitrary outcome of the discarded `destroy_command.execute()` call. -/
def constRun {σ : Type} (d : DestroyResult) : σ → DestroyResult × σ := fun s => (d, s)

/-- Step 1 result: catalog and schema creation conjoined. -/
def st1val (e : OEnv) (pfx : String) : Bool :=
  e.createCatOk (pfx ++ "_catalog") && e.createSchOk ((pfx ++ "_catalog") ++ "." ++ "default")

/-- Step 2 result: scope creation gates the four secret writes. -/
def st2val (e : OEnv) : Bool :=
  if e.createScopeOk "skyflow-secrets" then
    e.putSecretOk "skyflow_pat_token" && e.putSecretOk "skyflow_vault_id" &&
      e.putSecretOk "skyflow_table" && e.putSecretOk "skyflow_table_column"
  else false

/-- Step 3 result: the first SQL file gates the second. -/
def st3val (e : OEnv) : Bool :=
  if e.sqlFile "sql/setup/create_uc_connections.sql" then
    e.sqlFile "sql/setup/create_uc_connections.sql" &&
      e.sqlFile "sql/setup/setup_uc_connections_api.sql"
  else false

/-- Step 4 result: the sample-table SQL alone. -/
def st4val (e : OEnv) : Bool := e.sqlFile "sql/setup/create_sample_table.sql"

/-- Step 5 result: the notebook upload. -/
def st5val (e : OEnv) (pfx : String) : Bool := e.setupNbOk pfx

/-! ### Intermediate states of a destroy run on the world machine -/

/-- State after destroy step 1. -/
def dw1 (pfx : String) (s : WState) : WState := (destroyStep1 worldOps pfx s).2

/-- State after destroy step 2. -/
def dw2 (pfx : String) (s : WState) : WState := (destroyStep2 worldOps pfx (dw1 pfx s)).2

/-- State after destroy step 3. -/
def dw3 (pfx : String) (s : WState) : WState := (destroyStep3 worldOps pfx (dw2 pfx s)).2

/-- State after destroy step 4. -/
def dw4 (pfx : String) (s : WState) : WState := (destroyStep4 worldOps pfx (dw3 pfx s)).2

/-- State after destroy step 5. -/
def dw5 (pfx : String) (s : WState) : WState := (destroyStep5 worldOps pfx (dw4 pfx s)).2

/-- State after destroy step 6. -/
def dw6 (pfx : String) (s : WState) : WState := (destroyStep6 worldOps pfx (dw5 pfx s)).2

/-- State after destroy step 7. -/
def dw7 (pfx : String) (s : WState) : WState := (destroyStep7 worldOps (dw6 pfx s)).2

/-- State after destroy step 8. -/
def dw8 (pfx : String) (s : WState) : WState := (destroyStep8 worldOps (dw7 pfx s)).2

/-- Failed-list contribution of destroy step 1 on the world machine. -/
def df1 (pfx : String) (s : WState) : List String := (destroyStep1 worldOps pfx s).1.2

/-- Failed-list contribution of destroy step 2. -/
def df2 (pfx : String) (s : WState) : List String :=
  (destroyStep2 worldOps pfx (dw1 pfx s)).1.2

/-- Failed-list contribution of destroy step 3. -/
def df3 (pfx : String) (s : WState) : List String :=
  (destroyStep3 worldOps pfx (dw2 pfx s)).1.2

/-- Failed-list contribution of destroy step 4. -/
def df4 (pfx : String) (s : WState) : List String :=
  (destroyStep4 worldOps pfx (dw3 pfx s)).1.2

/-- Failed-list contribution of destroy step 5. -/
def df5 (pfx : String) (s : WState) : List String :=
  (destroyStep5 worldOps pfx (dw4 pfx s)).1.2

/-- Failed-list contribution of destroy step 6. -/
def df6 (pfx : String) (s : WState) : List String :=
  (destroyStep6 worldOps pfx (dw5 pfx s)).1.2

/-- Failed-list contribution of destroy step 7. -/
def df7 (pfx : String) (s : WState) : List String := (destroyStep7 worldOps (dw6 pfx s)).1.2

/-- Failed-list contribution of destroy step 8. -/
def df8 (pfx : String) (s : WState) : List String := (destroyStep8 worldOps (dw7 pfx s)).1.2

/-- World state after `runCreate` for `demo` on the empty platform. -/
def c7CreateEnd : WState := (runCreate worldOps "demo" subsDemo cleanWState).2

/-- The same state with one injected permanent failure: the notebook delete
call of the following destroy run will fail. -/
def c7DestroyStart : WState := { c7CreateEnd with failDeleteNotebook := [true] }

/-! ## Theorems -/

/-! ### C9: no-op guards of the create/drop primitives -/

/-- C9 counterexample: the claim asserts that for every kind in
{catalog, schema, http-connection, secret-scope, secret, notebook-file} the
create operation returns success without issuing the create call when the
resource already exists.  For the kind `secret`, `SecretsManager.put_secret`
consults no existence probe and always issues the write, and for
`notebook-file`, `create_notebook_from_file` always issues the upload
(`overwrite=True`) when the local file is present — in particular in the
states where the secret / workspace notebook already exists. -/
theorem c9_counterexample :
    (put_secret true).issuedCall = true ∧ (put_secret true).ok = true ∧
      (create_notebook_from_file true true).issuedCall = true :=
  ⟨rfl, rfl, rfl⟩

/-- C9 (amended): for the kinds catalog, schema, http-connection and
secret-scope, the create operation is a no-op success (no remote call) when
the existence probe already finds the resource; for the kinds catalog,
http-connection, secret-scope and notebook-file, the drop operation is a
no-op success (no remote call) when the resource is not found.  The create
operations for `secret` and `notebook-file` always issue the remote write
(upsert / overwrite), and the sources define no drop operation for the kinds
`schema` and `secret`. -/
theorem c9_noop_guards (callOk : Bool) :
    create_catalog true callOk = ⟨true, false⟩ ∧
    create_schema true callOk = ⟨true, false⟩ ∧
    create_http_connection true callOk = ⟨true, false⟩ ∧
    create_secret_scope true callOk = ⟨true, false⟩ ∧
    drop_catalog false callOk = ⟨true, false⟩ ∧
    drop_connection false callOk = ⟨true, false⟩ ∧
    delete_secret_scope false callOk = ⟨true, false⟩ ∧
    delete_notebook false callOk = ⟨true, false⟩ ∧
    (put_secret callOk).issuedCall = true ∧
    (create_notebook_from_file true callOk).issuedCall = true :=
  ⟨rfl, rfl, rfl, rfl, rfl, rfl, rfl, rfl, rfl, rfl⟩

/-! ### C8: templated SQL execution -/

theorem osAt_zero (os : List Bool) : osAt os 0 = os.headD false := by
  cases os <;> rfl

theorem osAt_tail (os : List Bool) (j : Nat) : osAt os.tail j = osAt os (j + 1) := by
  cases os <;> rfl

/-- Full characterisation of the statement loop of `execute_sql_file`. -/
theorem runStatements_spec (stmts : List String) : ∀ (os : List Bool) (i : Nat),
    ((runStatements os i stmts).1 = true ↔ ∀ j, j < stmts.length → osAt os j = true) ∧
    ((runStatements os i stmts).1 = true →
      (runStatements os i stmts).2.1 = stmts ∧ (runStatements os i stmts).2.2 = none) ∧
    ((runStatements os i stmts).1 = false →
      ∃ j, j < stmts.length ∧ osAt os j = false ∧ (∀ m, m < j → osAt os m = true) ∧
        (runStatements os i stmts).2.1 = stmts.take (j + 1) ∧
        (runStatements os i stmts).2.2 = some (i + j + 1)) := by
  induction stmts with
  | nil => intro os i; simp [runStatements]
  | cons s rest ih =>
    intro os i
    obtain ⟨ih1, ih2, ih3⟩ := ih os.tail (i + 1)
    cases h : os.headD false with
    | true =>
      simp only [runStatements, h, if_true]
      refine ⟨?_, ?_, ?_⟩
      · constructor
        · intro hok j hj
          cases j with
          | zero => rw [osAt_zero]; exact h
          | succ m =>
            rw [← osAt_tail]
            exact ih1.mp hok m (by simpa using Nat.lt_of_succ_lt_succ hj)
        · intro hall
          exact ih1.mpr fun j hj => by
            rw [osAt_tail]; exact hall (j + 1) (by simpa using Nat.succ_lt_succ hj)
      · intro hok
        obtain ⟨he, hf⟩ := ih2 hok
        exact ⟨by rw [he], hf⟩
      · intro hfail
        obtain ⟨j, hj, hf, hprev, hex, hfi⟩ := ih3 hfail
        refine ⟨j + 1, by simpa using Nat.succ_lt_succ hj, by rw [← osAt_tail]; exact hf,
          ?_, ?_, ?_⟩
        · intro m hm
          cases m with
          | zero => rw [osAt_zero]; exact h
          | succ k =>
            rw [← osAt_tail]
            exact hprev k (Nat.lt_of_succ_lt_succ hm)
        · rw [hex]; rfl
        · rw [hfi]; congr 1; omega
    | false =>
      simp only [runStatements, h, Bool.false_eq_true, if_false]
      refine ⟨?_, ?_, ?_⟩
      · constructor
        · intro hok; exact absurd hok (by simp)
        · intro hall
          have := hall 0 (by simp)
          rw [osAt_zero, h] at this
          exact absurd this (by simp)
      · intro hok; exact absurd hok (by simp)
      · intro _
        exact ⟨0, by simp, by rw [osAt_zero]; exact h, by omega, rfl, by simp⟩

/-- Fuel irrelevance for the Python-`replace` model: any fuel at least the
length of the scanned list gives the same result. -/
theorem replaceAllFuel_congr (pat rep : List Char) :
    ∀ (f1 f2 : Nat) (l : List Char), l.length ≤ f1 → l.length ≤ f2 →
      replaceAllFuel pat rep f1 l = replaceAllFuel pat rep f2 l := by
  intro f1
  induction f1 with
  | zero =>
    intro f2 l h1 _
    have : l = [] := List.eq_nil_of_length_eq_zero (Nat.le_zero.mp h1)
    subst this
    cases f2 <;> rfl
  | succ n ihn =>
    intro f2 l h1 h2
    cases l with
    | nil => cases f2 <;> rfl
    | cons c rest =>
      cases f2 with
      | zero => simp at h2
      | succ m =>
        simp only [replaceAllFuel]
        by_cases hc : (!pat.isEmpty && pat.isPrefixOf (c :: rest)) = true
        · rw [if_pos hc, if_pos hc]
          congr 1
          have hpat : pat ≠ [] := by
            intro hnil; subst hnil; simp at hc
          have hp : 0 < pat.length := List.length_pos.mpr hpat
          apply ihn
          · simp only [List.length_drop, List.length_cons] at *
            omega
          · simp only [List.length_drop, List.length_cons] at *
            omega
        · rw [if_neg hc, if_neg hc]
          congr 1
          apply ihn
          · simp only [List.length_cons] at h1; omega
          · simp only [List.length_cons] at h2; omega

/-- If the pattern occurs nowhere in the list, `replace` leaves it
unchanged. -/
theorem replaceAllFuel_of_not_contains (pat rep : List Char) :
    ∀ (fuel : Nat) (l : List Char), l.length ≤ fuel → containsPat pat l = false →
      replaceAllFuel pat rep fuel l = l := by
  intro fuel
  induction fuel with
  | zero => intro l _ _; cases l <;> rfl
  | succ n ihn =>
    intro l h1 h2
    cases l with
    | nil => rfl
    | cons c rest =>
      simp only [containsPat, Bool.or_eq_false_iff] at h2
      simp only [replaceAllFuel]
      rw [if_neg (by simp [h2.1])]
      have : rest.length ≤ n := by
        simp only [List.length_cons] at h1; omega
      rw [ihn rest this h2.2]

theorem isPrefixOf_append_self (pat t : List Char) : pat.isPrefixOf (pat ++ t) = true := by
  induction pat with
  | nil => simp [List.isPrefixOf]
  | cons p pr ih => simp [List.isPrefixOf, ih]

/-- `replace` on a list starting with the pattern substitutes the pattern and
continues after it. -/
theorem replaceAll_append_self (pat rep t : List Char) (hp : pat ≠ []) :
    replaceAll (pat ++ t) pat rep = rep ++ replaceAll t pat rep := by
  obtain ⟨p, pr, rfl⟩ : ∃ p pr, pat = p :: pr := by
    cases pat with
    | nil => exact absurd rfl hp
    | cons a as => exact ⟨a, as, rfl⟩
  show replaceAllFuel (p :: pr) rep ((p :: pr) ++ t).length ((p :: pr) ++ t) =
    rep ++ replaceAllFuel (p :: pr) rep t.length t
  have h2 : (p :: pr) ++ t = p :: (pr ++ t) := rfl
  have h1 : ((p :: pr) ++ t).length = (pr ++ t).length + 1 := by
    rw [h2]; exact List.length_cons _ _
  have hcond : (!(p :: pr).isEmpty && (p :: pr).isPrefixOf (p :: (pr ++ t))) = true := by
    have hpre := isPrefixOf_append_self (p :: pr) t
    rw [h2] at hpre
    simp [hpre]
  have h3 : (p :: (pr ++ t)).drop (p :: pr).length = t := by
    rw [← h2]
    exact List.drop_left _ _
  rw [h1, h2]
  simp only [replaceAllFuel]
  rw [if_pos hcond, h3]
  congr 1
  apply replaceAllFuel_congr
  · simp
  · exact Nat.le_refl _

/-- `replace` keeps a character that does not start an occurrence of the
pattern. -/
theorem replaceAll_cons_not_prefix (pat rep : List Char) (c : Char) (l : List Char)
    (h : pat.isPrefixOf (c :: l) = false) :
    replaceAll (c :: l) pat rep = c :: replaceAll l pat rep := by
  unfold replaceAll
  simp only [List.length_cons, replaceAllFuel]
  rw [if_neg (by simp [h])]

/-- C8: `execute_sql_file` applies the substitution map over the whole
template text (`${KEY}` replaced everywhere by `str.replace` semantics,
keys applied in insertion order), splits the result on `;` discarding
whitespace-only fragments, executes the statements strictly in document
order, aborts the file at the first failing statement reporting its 1-based
index, and returns true exactly when every statement succeeded. -/
theorem c8_templated_sql (content : String) (subs : List (String × String)) (os : List Bool) :
    ((execute_sql_file true content subs os).executed =
      (splitStatements (apply_substitutions content subs)).take
        (execute_sql_file true content subs os).executed.length ∧
     ((execute_sql_file true content subs os).ok = true ↔
      ∀ j, j < (splitStatements (apply_substitutions content subs)).length →
        osAt os j = true) ∧
     ((execute_sql_file true content subs os).ok = true →
      (execute_sql_file true content subs os).executed =
        splitStatements (apply_substitutions content subs) ∧
      (execute_sql_file true content subs os).failedIndex = none) ∧
     ((execute_sql_file true content subs os).ok = false →
      ∃ j, j < (splitStatements (apply_substitutions content subs)).length ∧
        osAt os j = false ∧ (∀ m, m < j → osAt os m = true) ∧
        (execute_sql_file true content subs os).executed =
          (splitStatements (apply_substitutions content subs)).take (j + 1) ∧
        (execute_sql_file true content subs os).failedIndex = some (j + 1))) ∧
    (∀ (sql k v : String) (rest : List (String × String)),
      apply_substitutions sql ((k, v) :: rest) =
        apply_substitutions (pyReplace sql (substKey k) v) rest) ∧
    (∀ (sql pat rep : String), containsPat pat.data sql.data = false →
      pyReplace sql pat rep = sql) ∧
    (∀ (pat rep t : String), pat.data ≠ [] →
      (pyReplace (pat ++ t) pat rep).data =
        rep.data ++ replaceAll t.data pat.data rep.data) := by
  have hr : execute_sql_file true content subs os =
      ⟨(runStatements os 0 (splitStatements (apply_substitutions content subs))).1,
       (runStatements os 0 (splitStatements (apply_substitutions content subs))).2.1,
       (runStatements os 0 (splitStatements (apply_substitutions content subs))).2.2⟩ := by
    cases subs <;> rfl
  obtain ⟨h1, h2, h3⟩ := runStatements_spec (splitStatements (apply_substitutions content subs)) os 0
  refine ⟨⟨?_, ?_, ?_, ?_⟩, ?_, ?_, ?_⟩
  · rw [hr]
    cases hok : (runStatements os 0 (splitStatements (apply_substitutions content subs))).1 with
    | true =>
      obtain ⟨he, _⟩ := h2 hok
      rw [he, List.take_length]
    | false =>
      obtain ⟨j, hj, _, _, hex, _⟩ := h3 hok
      rw [hex, List.length_take, Nat.min_eq_left (by omega)]
  · rw [hr]; exact h1
  · rw [hr]; exact h2
  · rw [hr]
    intro hfail
    obtain ⟨j, hj, hf, hprev, hex, hfi⟩ := h3 hfail
    exact ⟨j, hj, hf, hprev, hex, by rw [hfi]; simp⟩
  · intro sql k v rest
    cases rest <;> rfl
  · intro sql pat rep hno
    show String.mk (replaceAll sql.data pat.data rep.data) = sql
    rw [show replaceAll sql.data pat.data rep.data =
      replaceAllFuel pat.data rep.data sql.data.length sql.data from rfl]
    rw [replaceAllFuel_of_not_contains pat.data rep.data sql.data.length sql.data
      (Nat.le_refl _) hno]
  · intro pat rep t hp
    show replaceAll (pat.data ++ t.data) pat.data rep.data =
      rep.data ++ replaceAll t.data pat.data rep.data
    exact replaceAll_append_self pat.data rep.data t.data hp

/-- C8 witness: a concrete file with two statements, both succeeding. -/
theorem c8_templated_sql_w :
    (execute_sql_file true "A; B" [] [true, true]).ok = true :=
  ((c8_templated_sql "A; B" [] [true, true]).1.2.1).mpr (by decide)

/-! ### Reduction lemmas for the oracle machine -/

theorem oc_validate_fst (e : OEnv) (s : List String) :
    ((oracleOps e).validateEnv s).1 = e.validateOk := rfl

theorem oc_validate_snd (e : OEnv) (s : List String) :
    ((oracleOps e).validateEnv s).2 = s ++ ["validate_environment"] := rfl

theorem oc_files_fst (e : OEnv) (s : List String) :
    ((oracleOps e).requiredFilesExist s).1 = e.filesOk := rfl

theorem oc_files_snd (e : OEnv) (s : List String) :
    ((oracleOps e).requiredFilesExist s).2 = s ++ ["validate_required_files"] := rfl

theorem oc_findDash_fst (e : OEnv) (n : String) (s : List String) :
    ((oracleOps e).findDashboardByName n s).1 = e.findDash n := rfl

theorem oc_findDash_snd (e : OEnv) (n : String) (s : List String) :
    ((oracleOps e).findDashboardByName n s).2 = s ++ ["find_dashboard_by_name"] := rfl

theorem oc_deleteDash_fst (e : OEnv) (d : String) (s : List String) :
    ((oracleOps e).deleteDashboard d s).1 = e.deleteDashOk d := rfl

theorem oc_deleteDash_snd (e : OEnv) (d : String) (s : List String) :
    ((oracleOps e).deleteDashboard d s).2 = s ++ ["delete_dashboard"] := rfl

theorem oc_deleteNb_fst (e : OEnv) (p : String) (s : List String) :
    ((oracleOps e).deleteNotebook p s).1 = e.deleteNbOk p := rfl

theorem oc_deleteNb_snd (e : OEnv) (p : String) (s : List String) :
    ((oracleOps e).deleteNotebook p s).2 = s ++ ["delete_notebook"] := rfl

theorem oc_catExists_fst (e : OEnv) (n : String) (s : List String) :
    ((oracleOps e).catalogExists n s).1 = e.catExists n := rfl

theorem oc_catExists_snd (e : OEnv) (n : String) (s : List String) :
    ((oracleOps e).catalogExists n s).2 = s ++ ["catalog_exists"] := rfl

theorem oc_connExists_fst (e : OEnv) (n : String) (s : List String) :
    ((oracleOps e).connectionExists n s).1 = e.connExists n := rfl

theorem oc_connExists_snd (e : OEnv) (n : String) (s : List String) :
    ((oracleOps e).connectionExists n s).2 = s ++ ["connection_exists"] := rfl

theorem oc_scopeExists_fst (e : OEnv) (n : String) (s : List String) :
    ((oracleOps e).secretScopeExists n s).1 = e.scopeExists n := rfl

theorem oc_scopeExists_snd (e : OEnv) (n : String) (s : List String) :
    ((oracleOps e).secretScopeExists n s).2 = s ++ ["secret_scope_exists"] := rfl

theorem oc_sql_fst (e : OEnv) (path : String) (subs : List (String × String)) (s : List String) :
    ((oracleOps e).executeSqlFile path subs s).1 = e.sqlFile path := rfl

theorem oc_sql_snd (e : OEnv) (path : String) (subs : List (String × String)) (s : List String) :
    ((oracleOps e).executeSqlFile path subs s).2 = s ++ ["execute_sql_file " ++ path] := rfl

theorem oc_dropCat_fst (e : OEnv) (n : String) (s : List String) :
    ((oracleOps e).dropCatalog n s).1 = e.dropCatOk n := rfl

theorem oc_dropCat_snd (e : OEnv) (n : String) (s : List String) :
    ((oracleOps e).dropCatalog n s).2 = s ++ ["drop_catalog"] := rfl

theorem oc_dropConn_fst (e : OEnv) (n : String) (s : List String) :
    ((oracleOps e).dropConnection n s).1 = e.dropConnOk n := rfl

theorem oc_dropConn_snd (e : OEnv) (n : String) (s : List String) :
    ((oracleOps e).dropConnection n s).2 = s ++ ["drop_connection"] := rfl

theorem oc_deleteScope_fst (e : OEnv) (n : String) (s : List String) :
    ((oracleOps e).deleteSecretScope n s).1 = e.deleteScopeOk n := rfl

theorem oc_deleteScope_snd (e : OEnv) (n : String) (s : List String) :
    ((oracleOps e).deleteSecretScope n s).2 = s ++ ["delete_secret_scope"] := rfl

theorem oc_createCat_fst (e : OEnv) (n : String) (s : List String) :
    ((oracleOps e).createCatalog n s).1 = e.createCatOk n := rfl

theorem oc_createCat_snd (e : OEnv) (n : String) (s : List String) :
    ((oracleOps e).createCatalog n s).2 = s ++ ["create_catalog"] := rfl

theorem oc_createSch_fst (e : OEnv) (c n : String) (s : List String) :
    ((oracleOps e).createSchema c n s).1 = e.createSchOk (c ++ "." ++ n) := rfl

theorem oc_createSch_snd (e : OEnv) (c n : String) (s : List String) :
    ((oracleOps e).createSchema c n s).2 = s ++ ["create_schema"] := rfl

theorem oc_createScope_fst (e : OEnv) (n : String) (s : List String) :
    ((oracleOps e).createSecretScope n s).1 = e.createScopeOk n := rfl

theorem oc_createScope_snd (e : OEnv) (n : String) (s : List String) :
    ((oracleOps e).createSecretScope n s).2 = s ++ ["create_secret_scope"] := rfl

theorem oc_putSecret_fst (e : OEnv) (sc k : String) (s : List String) :
    ((oracleOps e).putSecret sc k s).1 = e.putSecretOk k := rfl

theorem oc_putSecret_snd (e : OEnv) (sc k : String) (s : List String) :
    ((oracleOps e).putSecret sc k s).2 = s ++ ["put_secret"] := rfl

theorem oc_setupNb_fst (e : OEnv) (p : String) (s : List String) :
    ((oracleOps e).setupTokenizationNotebook p s).1 = e.setupNbOk p := rfl

theorem oc_setupNb_snd (e : OEnv) (p : String) (s : List String) :
    ((oracleOps e).setupTokenizationNotebook p s).2 = s ++ ["setup_tokenization_notebook"] := rfl

theorem oc_execTok_fst (e : OEnv) (p : String) (s : List String) :
    ((oracleOps e).executeTokenizationNotebook p s).1 = e.execTokOk p := rfl

theorem oc_execTok_snd (e : OEnv) (p : String) (s : List String) :
    ((oracleOps e).executeTokenizationNotebook p s).2 =
      s ++ ["execute_tokenization_notebook"] := rfl

theorem oc_setupDash_fst (e : OEnv) (p : String) (s : List String) :
    ((oracleOps e).setupCustomerInsightsDashboard p s).1 = e.setupDash p := rfl

theorem oc_setupDash_snd (e : OEnv) (p : String) (s : List String) :
    ((oracleOps e).setupCustomerInsightsDashboard p s).2 =
      s ++ ["setup_customer_insights_dashboard"] := rfl

theorem oc_verifyTable_fst (e : OEnv) (n : String) (s : List String) :
    ((oracleOps e).verifyTableExists n s).1 = e.verifyTable n := rfl

theorem oc_verifyTable_snd (e : OEnv) (n : String) (s : List String) :
    ((oracleOps e).verifyTableExists n s).2 = s ++ ["verify_table_exists"] := rfl

theorem oc_rowCount_fst (e : OEnv) (n : String) (s : List String) :
    ((oracleOps e).getTableRowCount n s).1 = e.rowCount n := rfl

theorem oc_rowCount_snd (e : OEnv) (n : String) (s : List String) :
    ((oracleOps e).getTableRowCount n s).2 = s ++ ["get_table_row_count"] := rfl

/-! ### Per-step value lemmas under the oracle -/

theorem destroyStep1_val (e : OEnv) (pfx : String) (s : List String) :
    (destroyStep1 (oracleOps e) pfx s).1 = step1Contrib e pfx := by
  simp only [destroyStep1, step1Contrib, oc_findDash_fst, oc_findDash_snd,
    oc_deleteDash_fst, oc_deleteDash_snd]
  cases hfd : e.findDash (pfx ++ "_customer_insights_dashboard") with
  | none => rfl
  | some did =>
    cases hdd : e.deleteDashOk did <;> simp [hdd, hfd]

theorem destroyStep2_val (e : OEnv) (pfx : String) (s : List String) :
    (destroyStep2 (oracleOps e) pfx s).1 = step2Contrib e pfx := by
  simp only [destroyStep2, step2Contrib, oc_deleteNb_fst, oc_deleteNb_snd]
  cases hdn : e.deleteNbOk ("/Shared/" ++ pfx ++ "_tokenize_table") <;> simp [hdn]

theorem destroyStep3_val (e : OEnv) (pfx : String) (s : List String) :
    (destroyStep3 (oracleOps e) pfx s).1 = step3Contrib e pfx := by
  simp only [destroyStep3, step3Contrib, oc_catExists_fst, oc_catExists_snd,
    oc_sql_fst, oc_sql_snd]
  cases hce : e.catExists (pfx ++ "_catalog") <;>
    cases hq : e.sqlFile "sql/destroy/remove_column_masks.sql" <;> simp [hce, hq]

theorem destroyStep4_val (e : OEnv) (pfx : String) (s : List String) :
    (destroyStep4 (oracleOps e) pfx s).1 = step4Contrib e pfx := by
  simp only [destroyStep4, step4Contrib, oc_catExists_fst, oc_catExists_snd,
    oc_sql_fst, oc_sql_snd]
  cases hce : e.catExists (pfx ++ "_catalog") <;>
    cases hq : e.sqlFile "sql/destroy/drop_functions.sql" <;> simp [hce, hq]

theorem destroyStep5_val (e : OEnv) (pfx : String) (s : List String) :
    (destroyStep5 (oracleOps e) pfx s).1 = step5Contrib e pfx := by
  simp only [destroyStep5, step5Contrib, oc_catExists_fst, oc_catExists_snd,
    oc_sql_fst, oc_sql_snd]
  cases hce : e.catExists (pfx ++ "_catalog") <;>
    cases hq : e.sqlFile "sql/destroy/drop_table.sql" <;> simp [hce, hq]

theorem destroyStep6_val (e : OEnv) (pfx : String) (s : List String) :
    (destroyStep6 (oracleOps e) pfx s).1 = step6Contrib e pfx := by
  simp only [destroyStep6, step6Contrib, oc_dropCat_fst, oc_dropCat_snd,
    oc_catExists_fst, oc_catExists_snd]
  cases hdc : e.dropCatOk (pfx ++ "_catalog") <;>
    cases hce : e.catExists (pfx ++ "_catalog") <;> simp [hdc, hce]

theorem destroyStep7_val (e : OEnv) (s : List String) :
    (destroyStep7 (oracleOps e) s).1 = step7Contrib e := by
  simp only [destroyStep7, step7Contrib, oc_dropConn_fst, oc_dropConn_snd,
    oc_connExists_fst, oc_connExists_snd]
  cases hdc : e.dropConnOk "skyflow_conn" <;>
    cases hce : e.connExists "skyflow_conn" <;> simp [hdc, hce]

theorem destroyStep8_val (e : OEnv) (s : List String) :
    (destroyStep8 (oracleOps e) s).1 = step8Contrib e := by
  simp only [destroyStep8, step8Contrib, oc_deleteScope_fst, oc_deleteScope_snd,
    oc_scopeExists_fst, oc_scopeExists_snd]
  cases hds : e.deleteScopeOk "skyflow-secrets" <;>
    cases hse : e.scopeExists "skyflow-secrets" <;> simp [hds, hse]

/-! ### Closed form of a destroy run under the oracle -/

theorem destroy_oracle_failed (e : OEnv) (pfx : String) (s : List String)
    (hv : e.validateOk = true) :
    (destroyExecute (oracleOps e) pfx s).1.failed =
      (step1Contrib e pfx).2 ++ (step2Contrib e pfx).2 ++ (step3Contrib e pfx).2 ++
      (step4Contrib e pfx).2 ++ (step5Contrib e pfx).2 ++ (step6Contrib e pfx).2 ++
      (step7Contrib e).2 ++ (step8Contrib e).2 := by
  simp [destroyExecute, runStep, oc_validate_fst, hv, destroyStep1_val,
    destroyStep2_val, destroyStep3_val, destroyStep4_val, destroyStep5_val,
    destroyStep6_val, destroyStep7_val, destroyStep8_val]

theorem destroy_oracle_successful (e : OEnv) (pfx : String) (s : List String)
    (hv : e.validateOk = true) :
    (destroyExecute (oracleOps e) pfx s).1.successful =
      (step1Contrib e pfx).1 ++ (step2Contrib e pfx).1 ++ (step3Contrib e pfx).1 ++
      (step4Contrib e pfx).1 ++ (step5Contrib e pfx).1 ++ (step6Contrib e pfx).1 ++
      (step7Contrib e).1 ++ (step8Contrib e).1 := by
  simp [destroyExecute, runStep, oc_validate_fst, hv, destroyStep1_val,
    destroyStep2_val, destroyStep3_val, destroyStep4_val, destroyStep5_val,
    destroyStep6_val, destroyStep7_val, destroyStep8_val]

theorem destroy_oracle_steps (e : OEnv) (pfx : String) (s : List String)
    (hv : e.validateOk = true) :
    (destroyExecute (oracleOps e) pfx s).1.steps = destroyBanners := by
  simp [destroyExecute, runStep, oc_validate_fst, hv, destroyBanners]

theorem destroy_oracle_ok (e : OEnv) (pfx : String) (s : List String)
    (hv : e.validateOk = true) :
    (destroyExecute (oracleOps e) pfx s).1.ok =
      (destroyExecute (oracleOps e) pfx s).1.failed.isEmpty := by
  simp [destroyExecute, runStep, oc_validate_fst, hv]

theorem isEmpty_true_iff {α : Type} (l : List α) : l.isEmpty = true ↔ l = [] := by
  cases l <;> simp

theorem isEmpty_false_of_mem {α : Type} {x : α} {l : List α} (h : x ∈ l) :
    l.isEmpty = false := by
  cases l with
  | nil => simp at h
  | cons a t => rfl

/-! ### C2: destroy always runs all eight steps and returns failed-is-empty -/

/-- C2: every `DestroyCommand.execute` run (past environment validation, whose
exception is the only early exit) attempts all eight teardown steps in order —
dashboard, notebook, column masks, functions, table, catalog, connection,
secret scope — whatever each operation returns, and the returned boolean is
true exactly when the failed-deletions list is empty at the end. -/
theorem c2_destroy_all_steps (e : OEnv) (pfx : String) (hv : e.validateOk = true) :
    (destroyExecute (oracleOps e) pfx []).1.steps = destroyBanners ∧
    ((destroyExecute (oracleOps e) pfx []).1.ok = true ↔
      (destroyExecute (oracleOps e) pfx []).1.failed = []) := by
  refine ⟨destroy_oracle_steps e pfx [] hv, ?_⟩
  rw [destroy_oracle_ok e pfx [] hv]
  exact isEmpty_true_iff _

/-- C2 witness: the all-success run for prefix `demo`. -/
theorem c2_destroy_all_steps_w :
    (destroyExecute (oracleOps allOkEnv) "demo" []).1.steps = destroyBanners ∧
    ((destroyExecute (oracleOps allOkEnv) "demo" []).1.ok = true ↔
      (destroyExecute (oracleOps allOkEnv) "demo" []).1.failed = []) :=
  c2_destroy_all_steps allOkEnv "demo" rfl

/-! ### C3: post-delete verification failures are recorded and fatal -/

/-- C3: in every destroy run, for each of the four resources with a
post-delete existence re-check (dashboard, catalog, connection, secret
scope), if the delete call reported success and the post-delete probe still
finds the resource, the step's "(still exists)" item is in the
failed-deletions list and the run returns false; in particular for the
catalog of prefix `pfx` the failed list contains the exact string
`"Catalog: {pfx}_catalog (still exists)"`. -/
theorem c3_still_exists_recorded (e : OEnv) (pfx : String) (hv : e.validateOk = true) :
    (∀ did, e.findDash (pfx ++ "_customer_insights_dashboard") = some did →
      e.deleteDashOk did = true →
      ("Dashboard: " ++ (pfx ++ "_customer_insights_dashboard") ++ " (still exists)") ∈
          (destroyExecute (oracleOps e) pfx []).1.failed ∧
        (destroyExecute (oracleOps e) pfx []).1.ok = false) ∧
    (e.dropCatOk (pfx ++ "_catalog") = true → e.catExists (pfx ++ "_catalog") = true →
      ("Catalog: " ++ (pfx ++ "_catalog") ++ " (still exists)") ∈
          (destroyExecute (oracleOps e) pfx []).1.failed ∧
        (destroyExecute (oracleOps e) pfx []).1.ok = false) ∧
    (e.dropConnOk "skyflow_conn" = true → e.connExists "skyflow_conn" = true →
      "Connection: skyflow_conn (still exists)" ∈
          (destroyExecute (oracleOps e) pfx []).1.failed ∧
        (destroyExecute (oracleOps e) pfx []).1.ok = false) ∧
    (e.deleteScopeOk "skyflow-secrets" = true → e.scopeExists "skyflow-secrets" = true →
      "Secret scope: skyflow-secrets (still exists)" ∈
          (destroyExecute (oracleOps e) pfx []).1.failed ∧
        (destroyExecute (oracleOps e) pfx []).1.ok = false) := by
  refine ⟨?_, ?_, ?_, ?_⟩
  · intro did hfd hdd
    have hmem : ("Dashboard: " ++ (pfx ++ "_customer_insights_dashboard") ++ " (still exists)") ∈
        (destroyExecute (oracleOps e) pfx []).1.failed := by
      rw [destroy_oracle_failed e pfx [] hv]
      simp [step1Contrib, hfd, hdd]
    exact ⟨hmem, by rw [destroy_oracle_ok e pfx [] hv]; exact isEmpty_false_of_mem hmem⟩
  · intro hdc hce
    have hmem : ("Catalog: " ++ (pfx ++ "_catalog") ++ " (still exists)") ∈
        (destroyExecute (oracleOps e) pfx []).1.failed := by
      rw [destroy_oracle_failed e pfx [] hv]
      simp [step6Contrib, hdc, hce]
    exact ⟨hmem, by rw [destroy_oracle_ok e pfx [] hv]; exact isEmpty_false_of_mem hmem⟩
  · intro hdc hce
    have hmem : ("Connection: skyflow_conn (still exists)") ∈
        (destroyExecute (oracleOps e) pfx []).1.failed := by
      rw [destroy_oracle_failed e pfx [] hv]
      simp [step7Contrib, hdc, hce]
    exact ⟨hmem, by rw [destroy_oracle_ok e pfx [] hv]; exact isEmpty_false_of_mem hmem⟩
  · intro hds hse
    have hmem : ("Secret scope: skyflow-secrets (still exists)") ∈
        (destroyExecute (oracleOps e) pfx []).1.failed := by
      rw [destroy_oracle_failed e pfx [] hv]
      simp [step8Contrib, hds, hse]
    exact ⟨hmem, by rw [destroy_oracle_ok e pfx [] hv]; exact isEmpty_false_of_mem hmem⟩

/-- C3 witness: the `demo` run in which every delete succeeds but every
post-delete probe still finds its resource. -/
theorem c3_still_exists_recorded_w :
    ("Catalog: " ++ ("demo" ++ "_catalog") ++ " (still exists)") ∈
        (destroyExecute (oracleOps stillExistsEnv) "demo" []).1.failed ∧
      (destroyExecute (oracleOps stillExistsEnv) "demo" []).1.ok = false :=
  (c3_still_exists_recorded stillExistsEnv "demo" rfl).2.1 rfl rfl

/-! ### C10: successful and failed lists can both record the same resource -/

/-- C10: for each resource with a post-delete re-check, a successful delete
call first appends the resource's item to the successful list, and the
"(still exists)" item goes into the failed list in addition, not instead: in
one run both lists contain an entry for the same resource, and the run's
overall result is false even though the resource sits in the successful
list. -/
theorem c10_both_lists (e : OEnv) (pfx : String) (hv : e.validateOk = true) :
    (∀ did, e.findDash (pfx ++ "_customer_insights_dashboard") = some did →
      e.deleteDashOk did = true →
      ("Dashboard: " ++ (pfx ++ "_customer_insights_dashboard")) ∈
          (destroyExecute (oracleOps e) pfx []).1.successful ∧
        ("Dashboard: " ++ (pfx ++ "_customer_insights_dashboard") ++ " (still exists)") ∈
          (destroyExecute (oracleOps e) pfx []).1.failed) ∧
    (e.dropCatOk (pfx ++ "_catalog") = true → e.catExists (pfx ++ "_catalog") = true →
      ("Catalog: " ++ (pfx ++ "_catalog")) ∈
          (destroyExecute (oracleOps e) pfx []).1.successful ∧
        ("Catalog: " ++ (pfx ++ "_catalog") ++ " (still exists)") ∈
          (destroyExecute (oracleOps e) pfx []).1.failed ∧
        (destroyExecute (oracleOps e) pfx []).1.ok = false) ∧
    (e.dropConnOk "skyflow_conn" = true → e.connExists "skyflow_conn" = true →
      "Connection: skyflow_conn" ∈ (destroyExecute (oracleOps e) pfx []).1.successful ∧
        "Connection: skyflow_conn (still exists)" ∈
          (destroyExecute (oracleOps e) pfx []).1.failed) ∧
    (e.deleteScopeOk "skyflow-secrets" = true → e.scopeExists "skyflow-secrets" = true →
      "Secret scope: skyflow-secrets" ∈ (destroyExecute (oracleOps e) pfx []).1.successful ∧
        "Secret scope: skyflow-secrets (still exists)" ∈
          (destroyExecute (oracleOps e) pfx []).1.failed) := by
  refine ⟨?_, ?_, ?_, ?_⟩
  · intro did hfd hdd
    constructor
    · rw [destroy_oracle_successful e pfx [] hv]
      simp [step1Contrib, hfd, hdd]
    · rw [destroy_oracle_failed e pfx [] hv]
      simp [step1Contrib, hfd, hdd]
  · intro hdc hce
    have hmem : ("Catalog: " ++ (pfx ++ "_catalog") ++ " (still exists)") ∈
        (destroyExecute (oracleOps e) pfx []).1.failed := by
      rw [destroy_oracle_failed e pfx [] hv]
      simp [step6Contrib, hdc, hce]
    refine ⟨?_, hmem, by rw [destroy_oracle_ok e pfx [] hv]; exact isEmpty_false_of_mem hmem⟩
    rw [destroy_oracle_successful e pfx [] hv]
    simp [step6Contrib, hdc, hce]
  · intro hdc hce
    constructor
    · rw [destroy_oracle_successful e pfx [] hv]
      simp [step7Contrib, hdc, hce]
    · rw [destroy_oracle_failed e pfx [] hv]
      simp [step7Contrib, hdc, hce]
  · intro hds hse
    constructor
    · rw [destroy_oracle_successful e pfx [] hv]
      simp [step8Contrib, hds, hse]
    · rw [destroy_oracle_failed e pfx [] hv]
      simp [step8Contrib, hds, hse]

/-- C10 witness: the catalog of the `demo` still-exists run appears in both
lists while the run returns false. -/
theorem c10_both_lists_w :
    ("Catalog: " ++ ("demo" ++ "_catalog")) ∈
        (destroyExecute (oracleOps stillExistsEnv) "demo" []).1.successful ∧
      ("Catalog: " ++ ("demo" ++ "_catalog") ++ " (still exists)") ∈
        (destroyExecute (oracleOps stillExistsEnv) "demo" []).1.failed ∧
      (destroyExecute (oracleOps stillExistsEnv) "demo" []).1.ok = false :=
  (c10_both_lists stillExistsEnv "demo" rfl).2.1 rfl rfl

/-! ### C4: which step failures reach the failed list -/

/-- C4 counterexample: in the run `c4Env` for prefix `demo`, the notebook
delete (`delete_notebook` returned false, i.e. the notebook existed and its
delete call failed permanently) and the connection drop report permanent
failure, yet the failed-deletions list stays empty and the command returns
true — contradicting the claim that every step failure is appended to the
failed list (and lands in exactly one of the two lists) so that the overall
result is false. -/
theorem c4_counterexample :
    c4Env.deleteNbOk "/Shared/demo_tokenize_table" = false ∧
    c4Env.dropConnOk "skyflow_conn" = false ∧
    (destroyExecute (oracleOps c4Env) "demo" []).1.ok = true ∧
    (destroyExecute (oracleOps c4Env) "demo" []).1.failed = [] ∧
    "Notebook: /Shared/demo_tokenize_table" ∉
      (destroyExecute (oracleOps c4Env) "demo" []).1.successful ∧
    "Connection: skyflow_conn" ∉
      (destroyExecute (oracleOps c4Env) "demo" []).1.failed := by
  refine ⟨rfl, rfl, rfl, rfl, by decide, by decide⟩

/-- C4 (amended): the failed-deletions list is the concatenation of the
eight per-step contributions, and a reported delete/SQL failure reaches it
for steps 1 (dashboard), 4 (functions), 5 (table), 6 (catalog) and 8 (secret
scope), with a non-empty failed list forcing an overall false result; but a
notebook delete failure (step 2) and a connection drop failure (step 7)
contribute nothing to either list, and a column-mask SQL failure (step 3) is
recorded in the successful list as skipped. -/
theorem c4_failure_recording (e : OEnv) (pfx : String) (hv : e.validateOk = true) :
    ((destroyExecute (oracleOps e) pfx []).1.failed =
      (step1Contrib e pfx).2 ++ (step2Contrib e pfx).2 ++ (step3Contrib e pfx).2 ++
      (step4Contrib e pfx).2 ++ (step5Contrib e pfx).2 ++ (step6Contrib e pfx).2 ++
      (step7Contrib e).2 ++ (step8Contrib e).2) ∧
    ((destroyExecute (oracleOps e) pfx []).1.successful =
      (step1Contrib e pfx).1 ++ (step2Contrib e pfx).1 ++ (step3Contrib e pfx).1 ++
      (step4Contrib e pfx).1 ++ (step5Contrib e pfx).1 ++ (step6Contrib e pfx).1 ++
      (step7Contrib e).1 ++ (step8Contrib e).1) ∧
    (∀ did, e.findDash (pfx ++ "_customer_insights_dashboard") = some did →
      e.deleteDashOk did = false →
      (step1Contrib e pfx).2 = ["Dashboard: " ++ (pfx ++ "_customer_insights_dashboard")]) ∧
    (e.deleteNbOk ("/Shared/" ++ pfx ++ "_tokenize_table") = false →
      step2Contrib e pfx = ([], [])) ∧
    (e.catExists (pfx ++ "_catalog") = true →
      e.sqlFile "sql/destroy/remove_column_masks.sql" = false →
      step3Contrib e pfx = (["Column masks (skipped)"], [])) ∧
    (e.catExists (pfx ++ "_catalog") = true →
      e.sqlFile "sql/destroy/drop_functions.sql" = false →
      (step4Contrib e pfx).2 = ["Unity Catalog functions"]) ∧
    (e.catExists (pfx ++ "_catalog") = true →
      e.sqlFile "sql/destroy/drop_table.sql" = false →
      (step5Contrib e pfx).2 = ["Sample table"]) ∧
    (e.dropCatOk (pfx ++ "_catalog") = false →
      (step6Contrib e pfx).2 = ["Catalog: " ++ (pfx ++ "_catalog")]) ∧
    (e.dropConnOk "skyflow_conn" = false → step7Contrib e = ([], [])) ∧
    (e.deleteScopeOk "skyflow-secrets" = false →
      (step8Contrib e).2 = ["Secret scope: skyflow-secrets"]) ∧
    ((destroyExecute (oracleOps e) pfx []).1.failed ≠ [] →
      (destroyExecute (oracleOps e) pfx []).1.ok = false) := by
  refine ⟨destroy_oracle_failed e pfx [] hv, destroy_oracle_successful e pfx [] hv,
    ?_, ?_, ?_, ?_, ?_, ?_, ?_, ?_, ?_⟩
  · intro did hfd hdd; simp [step1Contrib, hfd, hdd]
  · intro h; simp [step2Contrib, h]
  · intro hce h; simp [step3Contrib, hce, h]
  · intro hce h; simp [step4Contrib, hce, h]
  · intro hce h; simp [step5Contrib, hce, h]
  · intro h; simp [step6Contrib, h]
  · intro h; simp [step7Contrib, h]
  · intro h; simp [step8Contrib, h]
  · intro hne
    rw [destroy_oracle_ok e pfx [] hv]
    cases hl : (destroyExecute (oracleOps e) pfx []).1.failed with
    | nil => exact absurd hl hne
    | cons a t => rfl

/-- C4 amended-claim witness: in the `c4Env` run for `demo` the failing
notebook step contributes nothing to either list. -/
theorem c4_failure_recording_w :
    step2Contrib c4Env "demo" = ([], []) :=
  (c4_failure_recording c4Env "demo" rfl).2.2.2.1 rfl

/-! ### Create-pipeline step lemmas under the oracle -/

theorem setupUnityCatalog_val (e : OEnv) (pfx : String) (s : List String) :
    (setupUnityCatalog (oracleOps e) pfx s).1 = st1val e pfx := rfl

theorem setupUnityCatalog_log (e : OEnv) (pfx : String) (s : List String) :
    (setupUnityCatalog (oracleOps e) pfx s).2 =
      s ++ ["create_catalog"] ++ ["create_schema"] := rfl

theorem setupSkyflowSecrets_val (e : OEnv) (s : List String) :
    (setupSkyflowSecrets (oracleOps e) s).1 = st2val e := by
  simp only [setupSkyflowSecrets, st2val, oc_createScope_fst, oc_createScope_snd,
    oc_putSecret_fst, oc_putSecret_snd]
  cases hsc : e.createScopeOk "skyflow-secrets" <;> simp [hsc]

theorem setupSkyflowSecrets_log (e : OEnv) (s : List String) :
    (setupSkyflowSecrets (oracleOps e) s).2 =
      if e.createScopeOk "skyflow-secrets" then
        s ++ ["create_secret_scope"] ++ ["put_secret"] ++ ["put_secret"] ++
          ["put_secret"] ++ ["put_secret"]
      else s ++ ["create_secret_scope"] := by
  simp only [setupSkyflowSecrets, oc_createScope_fst, oc_createScope_snd,
    oc_putSecret_fst, oc_putSecret_snd]
  cases hsc : e.createScopeOk "skyflow-secrets" <;> simp [hsc]

theorem setupConnections_val (e : OEnv) (subs : List (String × String)) (s : List String) :
    (setupConnections (oracleOps e) subs s).1 = st3val e := by
  simp only [setupConnections, st3val, oc_sql_fst, oc_sql_snd]
  cases hq : e.sqlFile "sql/setup/create_uc_connections.sql" <;> simp [hq]

theorem setupConnections_log (e : OEnv) (subs : List (String × String)) (s : List String) :
    (setupConnections (oracleOps e) subs s).2 =
      if e.sqlFile "sql/setup/create_uc_connections.sql" then
        s ++ ["execute_sql_file sql/setup/create_uc_connections.sql"] ++
          ["execute_sql_file sql/setup/setup_uc_connections_api.sql"]
      else s ++ ["execute_sql_file sql/setup/create_uc_connections.sql"] := by
  simp only [setupConnections, oc_sql_fst, oc_sql_snd]
  cases hq : e.sqlFile "sql/setup/create_uc_connections.sql" <;> simp [hq]

theorem createSampleData_val (e : OEnv) (pfx : String) (subs : List (String × String))
    (s : List String) :
    (createSampleData (oracleOps e) pfx subs s).1 = st4val e := by
  simp only [createSampleData, st4val, oc_sql_fst, oc_sql_snd, oc_verifyTable_fst,
    oc_verifyTable_snd, oc_rowCount_fst, oc_rowCount_snd]
  cases ht : e.sqlFile "sql/setup/create_sample_table.sql" <;>
    cases hw : e.verifyTable (pfx ++ "_catalog.default." ++ pfx ++ "_customer_data") <;>
      simp [ht, hw]

theorem createSampleData_log (e : OEnv) (pfx : String) (subs : List (String × String))
    (s : List String) :
    (createSampleData (oracleOps e) pfx subs s).2 =
      if e.sqlFile "sql/setup/create_sample_table.sql" then
        if e.verifyTable (pfx ++ "_catalog.default." ++ pfx ++ "_customer_data") then
          s ++ ["execute_sql_file sql/setup/create_sample_table.sql"] ++
            ["verify_table_exists"] ++ ["get_table_row_count"]
        else
          s ++ ["execute_sql_file sql/setup/create_sample_table.sql"] ++
            ["verify_table_exists"]
      else s ++ ["execute_sql_file sql/setup/create_sample_table.sql"] := by
  simp only [createSampleData, oc_sql_fst, oc_sql_snd, oc_verifyTable_fst,
    oc_verifyTable_snd, oc_rowCount_fst, oc_rowCount_snd]
  cases ht : e.sqlFile "sql/setup/create_sample_table.sql" <;>
    cases hw : e.verifyTable (pfx ++ "_catalog.default." ++ pfx ++ "_customer_data") <;>
      simp [ht, hw]

/-! ### C1: fatal gating of create steps 1-5 -/

/-- C1: in every `CreateCommand.execute` run past validation and the
required-files check, a failure of any fatal step 1-5 returns false
immediately — the step-banner trace stops at the failing step and the
dashboard operation (step 9) is never invoked — while if steps 1-5 all
succeed the command returns true and prints all nine step banners, whatever
the outcomes of the non-fatal steps 6-9.  The pre-create destroy outcome `d`
is arbitrary. -/
theorem c1_fatal_step_gating (e : OEnv) (pfx : String) (subs : List (String × String))
    (d : DestroyResult) (hv : e.validateOk = true) (hf : e.filesOk = true) :
    (st1val e pfx = false →
      (createExecute (oracleOps e) (constRun d) pfx subs []).1.ok = false ∧
      (createExecute (oracleOps e) (constRun d) pfx subs []).1.steps = createBanners.take 1 ∧
      "setup_customer_insights_dashboard" ∉
        (createExecute (oracleOps e) (constRun d) pfx subs []).2) ∧
    (st1val e pfx = true → st2val e = false →
      (createExecute (oracleOps e) (constRun d) pfx subs []).1.ok = false ∧
      (createExecute (oracleOps e) (constRun d) pfx subs []).1.steps = createBanners.take 2 ∧
      "setup_customer_insights_dashboard" ∉
        (createExecute (oracleOps e) (constRun d) pfx subs []).2) ∧
    (st1val e pfx = true → st2val e = true → st3val e = false →
      (createExecute (oracleOps e) (constRun d) pfx subs []).1.ok = false ∧
      (createExecute (oracleOps e) (constRun d) pfx subs []).1.steps = createBanners.take 3 ∧
      "setup_customer_insights_dashboard" ∉
        (createExecute (oracleOps e) (constRun d) pfx subs []).2) ∧
    (st1val e pfx = true → st2val e = true → st3val e = true → st4val e = false →
      (createExecute (oracleOps e) (constRun d) pfx subs []).1.ok = false ∧
      (createExecute (oracleOps e) (constRun d) pfx subs []).1.steps = createBanners.take 4 ∧
      "setup_customer_insights_dashboard" ∉
        (createExecute (oracleOps e) (constRun d) pfx subs []).2) ∧
    (st1val e pfx = true → st2val e = true → st3val e = true → st4val e = true →
      st5val e pfx = false →
      (createExecute (oracleOps e) (constRun d) pfx subs []).1.ok = false ∧
      (createExecute (oracleOps e) (constRun d) pfx subs []).1.steps = createBanners.take 5 ∧
      "setup_customer_insights_dashboard" ∉
        (createExecute (oracleOps e) (constRun d) pfx subs []).2) ∧
    (st1val e pfx = true → st2val e = true → st3val e = true → st4val e = true →
      st5val e pfx = true →
      (createExecute (oracleOps e) (constRun d) pfx subs []).1.ok = true ∧
      (createExecute (oracleOps e) (constRun d) pfx subs []).1.steps = createBanners) := by
  refine ⟨?_, ?_, ?_, ?_, ?_, ?_⟩
  · intro h1
    simp [createExecute, constRun, oc_validate_fst, oc_validate_snd, oc_files_fst,
      oc_files_snd, setupUnityCatalog_val, setupUnityCatalog_log, hv, hf, h1,
      createBanners]
  · intro h1 h2
    cases hsc : e.createScopeOk "skyflow-secrets" <;>
      simp [createExecute, constRun, oc_validate_fst, oc_validate_snd, oc_files_fst,
        oc_files_snd, setupUnityCatalog_val, setupUnityCatalog_log,
        setupSkyflowSecrets_val, setupSkyflowSecrets_log, hv, hf, h1, h2, hsc,
        createBanners]
  · intro h1 h2 h3
    cases hsc : e.createScopeOk "skyflow-secrets" <;>
      cases hq1 : e.sqlFile "sql/setup/create_uc_connections.sql" <;>
        simp [createExecute, constRun, oc_validate_fst, oc_validate_snd, oc_files_fst,
          oc_files_snd, setupUnityCatalog_val, setupUnityCatalog_log,
          setupSkyflowSecrets_val, setupSkyflowSecrets_log, setupConnections_val,
          setupConnections_log, hv, hf, h1, h2, h3, hsc, hq1, createBanners]
  · intro h1 h2 h3 h4
    have h4b : e.sqlFile "sql/setup/create_sample_table.sql" = false := h4
    cases hsc : e.createScopeOk "skyflow-secrets" <;>
      cases hq1 : e.sqlFile "sql/setup/create_uc_connections.sql" <;>
        simp [createExecute, constRun, oc_validate_fst, oc_validate_snd, oc_files_fst,
          oc_files_snd, setupUnityCatalog_val, setupUnityCatalog_log,
          setupSkyflowSecrets_val, setupSkyflowSecrets_log, setupConnections_val,
          setupConnections_log, createSampleData_val, createSampleData_log, hv, hf,
          h1, h2, h3, h4, h4b, hsc, hq1, createBanners]
  · intro h1 h2 h3 h4 h5
    have h4b : e.sqlFile "sql/setup/create_sample_table.sql" = true := h4
    have h5b : e.setupNbOk pfx = false := h5
    cases hsc : e.createScopeOk "skyflow-secrets" <;>
      cases hq1 : e.sqlFile "sql/setup/create_uc_connections.sql" <;>
        cases hvt : e.verifyTable (pfx ++ "_catalog.default." ++ pfx ++ "_customer_data") <;>
          simp [createExecute, constRun, oc_validate_fst, oc_validate_snd, oc_files_fst,
            oc_files_snd, setupUnityCatalog_val, setupUnityCatalog_log,
            setupSkyflowSecrets_val, setupSkyflowSecrets_log, setupConnections_val,
            setupConnections_log, createSampleData_val, createSampleData_log,
            oc_setupNb_fst, oc_setupNb_snd, hv, hf, h1, h2, h3, h4, h4b, h5, h5b,
            hsc, hq1, hvt, createBanners]
  · intro h1 h2 h3 h4 h5
    have h5b : e.setupNbOk pfx = true := h5
    simp [createExecute, constRun, oc_validate_fst, oc_validate_snd, oc_files_fst,
      oc_files_snd, setupUnityCatalog_val, setupSkyflowSecrets_val,
      setupConnections_val, createSampleData_val, oc_setupNb_fst, oc_setupNb_snd,
      oc_setupDash_fst, oc_setupDash_snd, hv, hf, h1, h2, h3, h4, h5, h5b]

/-- C1 witness: a run in which step 2 (secret-scope creation) fails
permanently — the command returns false, only the first two banners print,
and the dashboard operation is never invoked. -/
theorem c1_fatal_step_gating_w :
    (createExecute (oracleOps failSecretsEnv) (constRun ⟨true, [], [], []⟩)
        "demo" subsDemo []).1.ok = false ∧
    (createExecute (oracleOps failSecretsEnv) (constRun ⟨true, [], [], []⟩)
        "demo" subsDemo []).1.steps = createBanners.take 2 ∧
    "setup_customer_insights_dashboard" ∉
      (createExecute (oracleOps failSecretsEnv) (constRun ⟨true, [], [], []⟩)
        "demo" subsDemo []).2 :=
  (c1_fatal_step_gating failSecretsEnv "demo" subsDemo ⟨true, [], [], []⟩ rfl rfl).2.1
    (by decide) (by decide)

/-! ### C5: step 8 gated by step 7; step 9 always attempted -/

/-- C5: in every create run that reaches step 7 (steps 1-5 succeeded), the
column-mask SQL (step 8) is executed if and only if the tokenization job
(step 7) returned success, the dashboard operation (step 9) is always
invoked, and neither the step-8 outcome nor the step-9 URL changes the
returned boolean, which is true. -/
theorem c5_masks_iff_tokenization (e : OEnv) (pfx : String) (subs : List (String × String))
    (d : DestroyResult) (hv : e.validateOk = true) (hf : e.filesOk = true)
    (h1 : st1val e pfx = true) (h2 : st2val e = true) (h3 : st3val e = true)
    (h4 : st4val e = true) (h5 : st5val e pfx = true) :
    (createExecute (oracleOps e) (constRun d) pfx subs []).1.ok = true ∧
    (createExecute (oracleOps e) (constRun d) pfx subs []).1.steps = createBanners ∧
    (createExecute (oracleOps e) (constRun d) pfx subs []).1.dashboardUrl = e.setupDash pfx ∧
    "setup_customer_insights_dashboard" ∈
      (createExecute (oracleOps e) (constRun d) pfx subs []).2 ∧
    (e.execTokOk pfx = true →
      "execute_sql_file sql/setup/apply_column_masks.sql" ∈
        (createExecute (oracleOps e) (constRun d) pfx subs []).2) ∧
    (e.execTokOk pfx = false →
      "execute_sql_file sql/setup/apply_column_masks.sql" ∉
        (createExecute (oracleOps e) (constRun d) pfx subs []).2) := by
  have h4b : e.sqlFile "sql/setup/create_sample_table.sql" = true := h4
  have h5b : e.setupNbOk pfx = true := h5
  refine ⟨?_, ?_, ?_, ?_, ?_, ?_⟩
  · simp [createExecute, constRun, oc_validate_fst, oc_files_fst, setupUnityCatalog_val,
      setupSkyflowSecrets_val, setupConnections_val, createSampleData_val,
      oc_setupNb_fst, hv, hf, h1, h2, h3, h4, h5, h5b]
  · simp [createExecute, constRun, oc_validate_fst, oc_files_fst, setupUnityCatalog_val,
      setupSkyflowSecrets_val, setupConnections_val, createSampleData_val,
      oc_setupNb_fst, hv, hf, h1, h2, h3, h4, h5, h5b]
  · simp [createExecute, constRun, oc_validate_fst, oc_files_fst, setupUnityCatalog_val,
      setupSkyflowSecrets_val, setupConnections_val, createSampleData_val,
      oc_setupNb_fst, oc_setupDash_fst, hv, hf, h1, h2, h3, h4, h5, h5b]
  · cases hsc : e.createScopeOk "skyflow-secrets" <;>
      cases hq1 : e.sqlFile "sql/setup/create_uc_connections.sql" <;>
        cases hvt : e.verifyTable (pfx ++ "_catalog.default." ++ pfx ++ "_customer_data") <;>
          cases htok : e.execTokOk pfx <;>
            simp [createExecute, constRun, oc_validate_fst, oc_validate_snd, oc_files_fst,
              oc_files_snd, setupUnityCatalog_val, setupUnityCatalog_log,
              setupSkyflowSecrets_val, setupSkyflowSecrets_log, setupConnections_val,
              setupConnections_log, createSampleData_val, createSampleData_log,
              oc_setupNb_fst, oc_setupNb_snd, oc_sql_fst, oc_sql_snd, oc_execTok_fst,
              oc_execTok_snd, oc_setupDash_fst, oc_setupDash_snd, hv, hf, h1, h2, h3,
              h4, h4b, h5, h5b, hsc, hq1, hvt, htok]
  · intro htok
    cases hsc : e.createScopeOk "skyflow-secrets" <;>
      cases hq1 : e.sqlFile "sql/setup/create_uc_connections.sql" <;>
        cases hvt : e.verifyTable (pfx ++ "_catalog.default." ++ pfx ++ "_customer_data") <;>
          simp [createExecute, constRun, oc_validate_fst, oc_validate_snd, oc_files_fst,
            oc_files_snd, setupUnityCatalog_val, setupUnityCatalog_log,
            setupSkyflowSecrets_val, setupSkyflowSecrets_log, setupConnections_val,
            setupConnections_log, createSampleData_val, createSampleData_log,
            oc_setupNb_fst, oc_setupNb_snd, oc_sql_fst, oc_sql_snd, oc_execTok_fst,
            oc_execTok_snd, oc_setupDash_fst, oc_setupDash_snd, hv, hf, h1, h2, h3,
            h4, h4b, h5, h5b, hsc, hq1, hvt, htok]
  · intro htok
    cases hsc : e.createScopeOk "skyflow-secrets" <;>
      cases hq1 : e.sqlFile "sql/setup/create_uc_connections.sql" <;>
        cases hvt : e.verifyTable (pfx ++ "_catalog.default." ++ pfx ++ "_customer_data") <;>
          simp [createExecute, constRun, oc_validate_fst, oc_validate_snd, oc_files_fst,
            oc_files_snd, setupUnityCatalog_val, setupUnityCatalog_log,
            setupSkyflowSecrets_val, setupSkyflowSecrets_log, setupConnections_val,
            setupConnections_log, createSampleData_val, createSampleData_log,
            oc_setupNb_fst, oc_setupNb_snd, oc_sql_fst, oc_sql_snd, oc_execTok_fst,
            oc_execTok_snd, oc_setupDash_fst, oc_setupDash_snd, hv, hf, h1, h2, h3,
            h4, h4b, h5, h5b, hsc, hq1, hvt, htok]

/-- C5 witness: the all-success run — tokenization succeeded, so the
column-mask SQL was executed. -/
theorem c5_masks_iff_tokenization_w :
    "execute_sql_file sql/setup/apply_column_masks.sql" ∈
      (createExecute (oracleOps allOkEnv) (constRun ⟨true, [], [], []⟩)
        "demo" subsDemo []).2 :=
  (c5_masks_iff_tokenization allOkEnv "demo" subsDemo ⟨true, [], [], []⟩ rfl rfl
    (by decide) (by decide) (by decide) (by decide) (by decide)).2.2.2.2.1 (by decide)

/-! ### C6: create always destroys first and ignores the destroy outcome -/

theorem createExecute_preDestroy {σ : Type} (ops : Ops σ) (dr : σ → DestroyResult × σ)
    (pfx : String) (subs : List (String × String)) (s : σ) :
    (createExecute ops dr pfx subs s).1.preDestroy = (dr s).1 := by
  unfold createExecute
  dsimp only
  repeat' split
  all_goals rfl

theorem createExecute_const_swap {σ : Type} (ops : Ops σ) (pfx : String)
    (subs : List (String × String)) (s : σ) (d1 d2 : DestroyResult) :
    createExecute ops (constRun d1) pfx subs s =
      (⟨(createExecute ops (constRun d2) pfx subs s).1.ok, d1,
          (createExecute ops (constRun d2) pfx subs s).1.steps,
          (createExecute ops (constRun d2) pfx subs s).1.dashboardUrl⟩,
        (createExecute ops (constRun d2) pfx subs s).2) := by
  unfold createExecute constRun
  dsimp only
  repeat' split
  all_goals simp_all

/-- C6: `CreateCommand.execute` runs the full `DestroyCommand.execute` for
the same identifier before anything else (`runCreate` is the create body fed
with the destroy run, and the returned `preDestroy` is the destroy's result
on the initial state), and a failing destroy does not abort creation: the
create result — boolean, banners, dashboard URL, machine state — is the same
function for every pre-destroy outcome, and under the oracle the operations
issued after the destroy begin with environment validation, the
required-files check and step 1's catalog creation whatever the destroy
returned. -/
theorem c6_pre_create_destroy :
    (∀ (σ : Type) (ops : Ops σ) (pfx : String) (subs : List (String × String)) (s : σ)
        (d1 d2 : DestroyResult),
      runCreate ops pfx subs s = createExecute ops (destroyExecute ops pfx) pfx subs s ∧
      (runCreate ops pfx subs s).1.preDestroy = (destroyExecute ops pfx s).1 ∧
      (createExecute ops (constRun d1) pfx subs s).1.preDestroy = d1 ∧
      createExecute ops (constRun d1) pfx subs s =
        (⟨(createExecute ops (constRun d2) pfx subs s).1.ok, d1,
            (createExecute ops (constRun d2) pfx subs s).1.steps,
            (createExecute ops (constRun d2) pfx subs s).1.dashboardUrl⟩,
          (createExecute ops (constRun d2) pfx subs s).2)) ∧
    (∀ (e : OEnv) (pfx : String) (subs : List (String × String)) (d : DestroyResult),
      e.validateOk = true → e.filesOk = true →
      (createExecute (oracleOps e) (constRun d) pfx subs []).2.take 3 =
        ["validate_environment", "validate_required_files", "create_catalog"]) := by
  constructor
  · intro σ ops pfx subs s d1 d2
    exact ⟨rfl, createExecute_preDestroy ops (destroyExecute ops pfx) pfx subs s,
      createExecute_preDestroy ops (constRun d1) pfx subs s,
      createExecute_const_swap ops pfx subs s d1 d2⟩
  · intro e pfx subs d hv hf
    cases h1 : st1val e pfx with
    | false =>
      simp [createExecute, constRun, oc_validate_fst, oc_validate_snd, oc_files_fst,
        oc_files_snd, setupUnityCatalog_val, setupUnityCatalog_log, hv, hf, h1]
    | true =>
      cases h2 : st2val e with
      | false =>
        cases hsc : e.createScopeOk "skyflow-secrets" <;>
          simp [createExecute, constRun, oc_validate_fst, oc_validate_snd, oc_files_fst,
            oc_files_snd, setupUnityCatalog_val, setupUnityCatalog_log,
            setupSkyflowSecrets_val, setupSkyflowSecrets_log, hv, hf, h1, h2, hsc]
      | true =>
        cases h3 : st3val e with
        | false =>
          cases hsc : e.createScopeOk "skyflow-secrets" <;>
            cases hq1 : e.sqlFile "sql/setup/create_uc_connections.sql" <;>
              simp [createExecute, constRun, oc_validate_fst, oc_validate_snd,
                oc_files_fst, oc_files_snd, setupUnityCatalog_val, setupUnityCatalog_log,
                setupSkyflowSecrets_val, setupSkyflowSecrets_log, setupConnections_val,
                setupConnections_log, hv, hf, h1, h2, h3, hsc, hq1]
        | true =>
          cases h4 : st4val e with
          | false =>
            have h4b : e.sqlFile "sql/setup/create_sample_table.sql" = false := h4
            cases hsc : e.createScopeOk "skyflow-secrets" <;>
              cases hq1 : e.sqlFile "sql/setup/create_uc_connections.sql" <;>
                simp [createExecute, constRun, oc_validate_fst, oc_validate_snd,
                  oc_files_fst, oc_files_snd, setupUnityCatalog_val,
                  setupUnityCatalog_log, setupSkyflowSecrets_val,
                  setupSkyflowSecrets_log, setupConnections_val, setupConnections_log,
                  createSampleData_val, createSampleData_log, hv, hf, h1, h2, h3, h4,
                  h4b, hsc, hq1]
          | true =>
            have h4b : e.sqlFile "sql/setup/create_sample_table.sql" = true := h4
            cases h5 : st5val e pfx <;>
              have h5b : e.setupNbOk pfx = st5val e pfx := rfl <;>
              cases hsc : e.createScopeOk "skyflow-secrets" <;>
                cases hq1 : e.sqlFile "sql/setup/create_uc_connections.sql" <;>
                  cases hvt : e.verifyTable
                      (pfx ++ "_catalog.default." ++ pfx ++ "_customer_data") <;>
                    cases htok : e.execTokOk pfx <;>
                      simp [createExecute, constRun, oc_validate_fst, oc_validate_snd,
                        oc_files_fst, oc_files_snd, setupUnityCatalog_val,
                        setupUnityCatalog_log, setupSkyflowSecrets_val,
                        setupSkyflowSecrets_log, setupConnections_val,
                        setupConnections_log, createSampleData_val, createSampleData_log,
                        oc_setupNb_fst, oc_setupNb_snd, oc_sql_fst, oc_sql_snd,
                        oc_execTok_fst, oc_execTok_snd, oc_setupDash_fst,
                        oc_setupDash_snd, hv, hf, h1, h2, h3, h4, h4b, h5, h5b, hsc,
                        hq1, hvt, htok]

/-- C6 witness: the all-success `demo` run with two different pre-destroy
outcomes gives the same create result, and the post-destroy call log starts
with validation, the files check and the catalog creation. -/
theorem c6_pre_create_destroy_w :
    (createExecute (oracleOps allOkEnv) (constRun ⟨false, [], ["x"], []⟩)
        "demo" subsDemo []).1.ok =
      (createExecute (oracleOps allOkEnv) (constRun ⟨true, [], [], []⟩)
        "demo" subsDemo []).1.ok ∧
    (createExecute (oracleOps allOkEnv) (constRun ⟨true, [], [], []⟩)
        "demo" subsDemo []).2.take 3 =
      ["validate_environment", "validate_required_files", "create_catalog"] :=
  ⟨congrArg (fun r => r.1.ok)
      ((c6_pre_create_destroy.1 (List String) (oracleOps allOkEnv) "demo" subsDemo []
        ⟨false, [], ["x"], []⟩ ⟨true, [], [], []⟩).2.2.2),
    c6_pre_create_destroy.2 allOkEnv "demo" subsDemo ⟨true, [], [], []⟩ rfl rfl⟩

/-! ### C7: what a clean destroy run leaves behind on the world machine -/

theorem step1_world_clean (pfx : String) (s : WState)
    (h : (destroyStep1 worldOps pfx s).1.2 = []) :
    (destroyStep1 worldOps pfx s).2.world.dashboards.contains
      (pfx ++ "_customer_insights_dashboard") = false := by
  unfold destroyStep1 worldOps at h ⊢
  dsimp only at h ⊢
  by_cases hc : (pfx ++ "_customer_insights_dashboard") ∈ s.world.dashboards
  · by_cases hf2 : s.failDeleteDashboard.headD false = true
    · simp_all
    · simp_all
  · simp_all

theorem step6_world_clean (pfx : String) (s : WState)
    (h : (destroyStep6 worldOps pfx s).1.2 = []) :
    (destroyStep6 worldOps pfx s).2.world.catalogs.contains (pfx ++ "_catalog") = false := by
  unfold destroyStep6 worldOps at h ⊢
  dsimp only at h ⊢
  by_cases hc : (pfx ++ "_catalog") ∈ s.world.catalogs
  · by_cases hf2 : s.failDropCatalog.headD false = true
    · simp_all
    · simp_all
  · simp_all

theorem step8_world_clean (s : WState)
    (h : (destroyStep8 worldOps s).1.2 = []) :
    (destroyStep8 worldOps s).2.world.scopes.contains "skyflow-secrets" = false := by
  unfold destroyStep8 worldOps at h ⊢
  dsimp only at h ⊢
  by_cases hc : "skyflow-secrets" ∈ s.world.scopes
  · by_cases hf2 : s.failDeleteScope.headD false = true
    · simp_all
    · simp_all
  · simp_all

theorem step2_world_frame (pfx : String) (s : WState) :
    (destroyStep2 worldOps pfx s).2.world.dashboards = s.world.dashboards ∧
    (destroyStep2 worldOps pfx s).2.world.catalogs = s.world.catalogs ∧
    (destroyStep2 worldOps pfx s).2.world.scopes = s.world.scopes := by
  unfold destroyStep2 worldOps
  dsimp only
  by_cases hc : ("/Shared/" ++ pfx ++ "_tokenize_table") ∈ s.world.notebooks
  · by_cases hf2 : s.failDeleteNotebook.headD false = true
    · simp_all
    · simp_all
  · simp_all

theorem step3_world_frame (pfx : String) (s : WState) :
    (destroyStep3 worldOps pfx s).2.world.dashboards = s.world.dashboards ∧
    (destroyStep3 worldOps pfx s).2.world.catalogs = s.world.catalogs ∧
    (destroyStep3 worldOps pfx s).2.world.scopes = s.world.scopes := by
  unfold destroyStep3 worldOps
  dsimp only
  by_cases hc : (pfx ++ "_catalog") ∈ s.world.catalogs
  · by_cases hf2 : s.failSql.headD false = true
    · simp_all [sqlEffect]
    · simp_all [sqlEffect]
  · simp_all

theorem step4_world_frame (pfx : String) (s : WState) :
    (destroyStep4 worldOps pfx s).2.world.dashboards = s.world.dashboards ∧
    (destroyStep4 worldOps pfx s).2.world.catalogs = s.world.catalogs ∧
    (destroyStep4 worldOps pfx s).2.world.scopes = s.world.scopes := by
  unfold destroyStep4 worldOps
  dsimp only
  by_cases hc : (pfx ++ "_catalog") ∈ s.world.catalogs
  · by_cases hf2 : s.failSql.headD false = true
    · simp_all [sqlEffect]
    · simp_all [sqlEffect]
  · simp_all

theorem step5_world_frame (pfx : String) (s : WState) :
    (destroyStep5 worldOps pfx s).2.world.dashboards = s.world.dashboards ∧
    (destroyStep5 worldOps pfx s).2.world.catalogs = s.world.catalogs ∧
    (destroyStep5 worldOps pfx s).2.world.scopes = s.world.scopes := by
  unfold destroyStep5 worldOps
  dsimp only
  by_cases hc : (pfx ++ "_catalog") ∈ s.world.catalogs
  · by_cases hf2 : s.failSql.headD false = true
    · simp_all [sqlEffect]
    · simp_all [sqlEffect]
  · simp_all

theorem step6_world_frame (pfx : String) (s : WState) :
    (destroyStep6 worldOps pfx s).2.world.dashboards = s.world.dashboards ∧
    (destroyStep6 worldOps pfx s).2.world.scopes = s.world.scopes := by
  unfold destroyStep6 worldOps
  dsimp only
  by_cases hc : (pfx ++ "_catalog") ∈ s.world.catalogs
  · by_cases hf2 : s.failDropCatalog.headD false = true
    · simp_all
    · simp_all
  · simp_all

theorem step7_world_frame (s : WState) :
    (destroyStep7 worldOps s).2.world.dashboards = s.world.dashboards ∧
    (destroyStep7 worldOps s).2.world.catalogs = s.world.catalogs ∧
    (destroyStep7 worldOps s).2.world.scopes = s.world.scopes := by
  unfold destroyStep7 worldOps
  dsimp only
  by_cases hc : "skyflow_conn" ∈ s.world.connections
  · by_cases hf2 : s.failDropConnection.headD false = true
    · simp_all
    · simp_all
  · simp_all

theorem step8_world_frame (s : WState) :
    (destroyStep8 worldOps s).2.world.dashboards = s.world.dashboards ∧
    (destroyStep8 worldOps s).2.world.catalogs = s.world.catalogs := by
  unfold destroyStep8 worldOps
  dsimp only
  by_cases hc : "skyflow-secrets" ∈ s.world.scopes
  · by_cases hf2 : s.failDeleteScope.headD false = true
    · simp_all
    · simp_all
  · simp_all

theorem wc_validate (s : WState) : worldOps.validateEnv s = (true, s) := rfl

/-- The failed list of a world-machine destroy run is the concatenation of
the eight per-step contributions. -/
theorem destroy_world_failed_decomp (pfx : String) (s : WState) :
    (destroyExecute worldOps pfx s).1.failed =
      df1 pfx s ++ df2 pfx s ++ df3 pfx s ++ df4 pfx s ++ df5 pfx s ++ df6 pfx s ++
        df7 pfx s ++ df8 pfx s := by
  simp [destroyExecute, runStep, wc_validate, df1, df2, df3, df4, df5, df6, df7, df8,
    dw1, dw2, dw3, dw4, dw5, dw6, dw7]

/-- The final state of a world-machine destroy run. -/
theorem destroy_world_final (pfx : String) (s : WState) :
    (destroyExecute worldOps pfx s).2 = dw8 pfx s := by
  simp [destroyExecute, runStep, wc_validate, dw1, dw2, dw3, dw4, dw5, dw6, dw7, dw8]

/-- A destroy run with an empty failed list leaves the catalog, the sample
table, the dashboard and the secret scope unreachable through their
existence probes. -/
theorem destroy_world_clean (pfx : String) (s : WState)
    (h : (destroyExecute worldOps pfx s).1.failed = []) :
    (destroyExecute worldOps pfx s).2.world.catalogs.contains (pfx ++ "_catalog") = false ∧
    tableReachable (destroyExecute worldOps pfx s).2.world (pfx ++ "_catalog")
      (pfx ++ "_customer_data") = false ∧
    (destroyExecute worldOps pfx s).2.world.dashboards.contains
      (pfx ++ "_customer_insights_dashboard") = false ∧
    (destroyExecute worldOps pfx s).2.world.scopes.contains "skyflow-secrets" = false := by
  rw [destroy_world_failed_decomp] at h
  obtain ⟨h7, hg8⟩ := List.append_eq_nil.mp h
  obtain ⟨h6, hg7⟩ := List.append_eq_nil.mp h7
  obtain ⟨h5, hg6⟩ := List.append_eq_nil.mp h6
  obtain ⟨h4, hg5⟩ := List.append_eq_nil.mp h5
  obtain ⟨h3, hg4⟩ := List.append_eq_nil.mp h4
  obtain ⟨h2, hg3⟩ := List.append_eq_nil.mp h3
  obtain ⟨hg1, hg2⟩ := List.append_eq_nil.mp h2
  rw [destroy_world_final]
  have d2 : dw2 pfx s = (destroyStep2 worldOps pfx (dw1 pfx s)).2 := rfl
  have d3 : dw3 pfx s = (destroyStep3 worldOps pfx (dw2 pfx s)).2 := rfl
  have d4 : dw4 pfx s = (destroyStep4 worldOps pfx (dw3 pfx s)).2 := rfl
  have d5 : dw5 pfx s = (destroyStep5 worldOps pfx (dw4 pfx s)).2 := rfl
  have d6 : dw6 pfx s = (destroyStep6 worldOps pfx (dw5 pfx s)).2 := rfl
  have d7 : dw7 pfx s = (destroyStep7 worldOps (dw6 pfx s)).2 := rfl
  have d8 : dw8 pfx s = (destroyStep8 worldOps (dw7 pfx s)).2 := rfl
  have hcat : (dw8 pfx s).world.catalogs.contains (pfx ++ "_catalog") = false := by
    rw [d8, (step8_world_frame (dw7 pfx s)).2, d7, (step7_world_frame (dw6 pfx s)).2.1, d6]
    exact step6_world_clean pfx (dw5 pfx s) hg6
  have hdash : (dw8 pfx s).world.dashboards.contains
      (pfx ++ "_customer_insights_dashboard") = false := by
    rw [d8, (step8_world_frame (dw7 pfx s)).1, d7, (step7_world_frame (dw6 pfx s)).1, d6,
      (step6_world_frame pfx (dw5 pfx s)).1, d5, (step5_world_frame pfx (dw4 pfx s)).1, d4,
      (step4_world_frame pfx (dw3 pfx s)).1, d3, (step3_world_frame pfx (dw2 pfx s)).1, d2,
      (step2_world_frame pfx (dw1 pfx s)).1]
    exact step1_world_clean pfx s hg1
  have hscope : (dw8 pfx s).world.scopes.contains "skyflow-secrets" = false := by
    rw [d8]
    exact step8_world_clean (dw7 pfx s) hg8
  refine ⟨hcat, ?_, hdash, hscope⟩
  rw [tableReachable, hcat, Bool.and_false]

/-- C7 counterexample: starting from the empty platform, `runCreate("demo")`
succeeds; the immediately following `runDestroy("demo")` in which the
notebook delete call fails permanently (everything else succeeding) ends
with an empty failed list and returns true, yet the notebook
`/Shared/demo_tokenize_table` still exists and is reachable through its
existence probe — contradicting the claim that an empty failed list leaves
no resource with a derived name reachable. -/
theorem c7_counterexample :
    (runCreate worldOps "demo" subsDemo cleanWState).1.ok = true ∧
    (destroyExecute worldOps "demo" c7DestroyStart).1.failed = [] ∧
    (destroyExecute worldOps "demo" c7DestroyStart).1.ok = true ∧
    (destroyExecute worldOps "demo" c7DestroyStart).2.world.notebooks.contains
      "/Shared/demo_tokenize_table" = true := by
  refine ⟨rfl, rfl, rfl, rfl⟩

/-- C7 (amended): for every identifier and starting state, running
`runCreate` and then immediately `runDestroy`, if the destroy's failed list
is empty then the catalog `{prefix}_catalog`, the sample table
`{prefix}_customer_data`, the dashboard
`{prefix}_customer_insights_dashboard` and the shared scope
`skyflow-secrets` are unreachable through their existence probes; the
notebook `/Shared/{prefix}_tokenize_table` and the shared connection
`skyflow_conn` are excluded, because their delete failures are not recorded
in the failed list (destroy steps 2 and 7), so they can survive a run whose
failed list is empty. -/
theorem c7_create_destroy_clean (pfx : String) (subs : List (String × String)) (s0 : WState)
    (h : (destroyExecute worldOps pfx (runCreate worldOps pfx subs s0).2).1.failed = []) :
    (destroyExecute worldOps pfx
        (runCreate worldOps pfx subs s0).2).2.world.catalogs.contains
      (pfx ++ "_catalog") = false ∧
    tableReachable (destroyExecute worldOps pfx
        (runCreate worldOps pfx subs s0).2).2.world (pfx ++ "_catalog")
      (pfx ++ "_customer_data") = false ∧
    (destroyExecute worldOps pfx
        (runCreate worldOps pfx subs s0).2).2.world.dashboards.contains
      (pfx ++ "_customer_insights_dashboard") = false ∧
    (destroyExecute worldOps pfx
        (runCreate worldOps pfx subs s0).2).2.world.scopes.contains
      "skyflow-secrets" = false :=
  destroy_world_clean pfx (runCreate worldOps pfx subs s0).2 h

/-- C7 amended-claim witness: the failure-free `demo` run from the empty
platform. -/
theorem c7_create_destroy_clean_w :
    (destroyExecute worldOps "demo"
        (runCreate worldOps "demo" subsDemo cleanWState).2).2.world.catalogs.contains
      ("demo" ++ "_catalog") = false ∧
    tableReachable (destroyExecute worldOps "demo"
        (runCreate worldOps "demo" subsDemo cleanWState).2).2.world ("demo" ++ "_catalog")
      ("demo" ++ "_customer_data") = false ∧
    (destroyExecute worldOps "demo"
        (runCreate worldOps "demo" subsDemo cleanWState).2).2.world.dashboards.contains
      ("demo" ++ "_customer_insights_dashboard") = false ∧
    (destroyExecute worldOps "demo"
        (runCreate worldOps "demo" subsDemo cleanWState).2).2.world.scopes.contains
      "skyflow-secrets" = false :=
  c7_create_destroy_clean "demo" subsDemo cleanWState (by decide)

end SkyflowDatabricks
